import Mathlib

/-!
Verification of the zincio Zinc reader/writer against its specification.

The Python sources under `src/zincio/` (`zinc_tokenizer.py`, `zinc_parser.py`,
`tokens.py`, `dtypes.py`, `grid.py`) are shallowly embedded below.  The
character stream of the tokenizer is a `List Char` whose head plays the role
of `self._cur` and whose second element plays the role of `self._peek`; the
Python sentinel `EOF` corresponds to the empty list.  Python exceptions are
modelled with `Except`.  Each definition carries a comment naming the Python
function it embeds.
-/

namespace Zincio

/-- Scan-level errors of `zinc_tokenizer.py`.
`scanErr` models `ZincTokenizerException`; `attrErr` models an
`AttributeError` raised at runtime (the source contains attribute slips such
as `s._consume()` on a list, `self.consume` for `self._consume`, and
`TokenType.HEX`, which does not exist in `tokens.TokenType`); `hang` marks
the one spot where the source loops forever (`_tokenize_hex` on `_`). -/
inductive TokErr where
  | scanErr (msg : String)
  | attrErr (msg : String)
  | hang
  | fuelOut
deriving DecidableEq, Repr

/-- Mirror of `tokens.TokenType`. -/
inductive TType where
  | eof | newline | comma | colon | semicolon
  | lbracket | rbracket | lbrace | rbrace | lparen | rparen
  | lt | lteq | doublelt | gt | gteq | doublegt | arrow | minus
  | equals | notequals | assign | bang | slash
  | id | reserved | string | ref | date | time | datetime
  | coord | uri | xstr | number
deriving DecidableEq, Repr

/-- Mirror of `tokens.Token` / `tokens.NumberToken`: a kind tag, a lexeme,
and (meaningful for `number` only) the `unit_index` char offset. -/
structure ZToken where
  ttype : TType
  val : List Char
  unitIndex : Nat := 0
deriving DecidableEq, Repr

/-- The singletons of `tokens.py` (module-level `Token` constants). -/
def tEOF : ZToken := ⟨.eof, "EOF".toList, 0⟩
def tNEWLINE : ZToken := ⟨.newline, "\n".toList, 0⟩
def tCOMMA : ZToken := ⟨.comma, ",".toList, 0⟩
def tCOLON : ZToken := ⟨.colon, ":".toList, 0⟩
def tSEMICOLON : ZToken := ⟨.semicolon, ";".toList, 0⟩
def tLBRACKET : ZToken := ⟨.lbracket, "[".toList, 0⟩
def tRBRACKET : ZToken := ⟨.rbracket, "]".toList, 0⟩
def tLBRACE : ZToken := ⟨.lbrace, "\x7b".toList, 0⟩
def tRBRACE : ZToken := ⟨.rbrace, "\x7d".toList, 0⟩
def tLPAREN : ZToken := ⟨.lparen, "(".toList, 0⟩
def tRPAREN : ZToken := ⟨.rparen, ")".toList, 0⟩
def tLT : ZToken := ⟨.lt, "<".toList, 0⟩
def tLTEQ : ZToken := ⟨.lteq, "<=".toList, 0⟩
def tDOUBLELT : ZToken := ⟨.doublelt, "<<".toList, 0⟩
def tGT : ZToken := ⟨.gt, ">".toList, 0⟩
def tGTEQ : ZToken := ⟨.gteq, ">=".toList, 0⟩
def tDOUBLEGT : ZToken := ⟨.doublegt, ">>".toList, 0⟩
def tARROW : ZToken := ⟨.arrow, "->".toList, 0⟩
def tMINUS : ZToken := ⟨.minus, "-".toList, 0⟩
def tEQUALS : ZToken := ⟨.equals, "==".toList, 0⟩
def tNOTEQUALS : ZToken := ⟨.notequals, "!=".toList, 0⟩
def tASSIGN : ZToken := ⟨.assign, "=".toList, 0⟩
def tBANG : ZToken := ⟨.bang, "!".toList, 0⟩
def tSLASH : ZToken := ⟨.slash, "/".toList, 0⟩
def tNULL : ZToken := ⟨.reserved, "N".toList, 0⟩
def tMARKER : ZToken := ⟨.reserved, "M".toList, 0⟩
def tREMOVE : ZToken := ⟨.reserved, "R".toList, 0⟩
def tNA : ZToken := ⟨.reserved, "NA".toList, 0⟩
def tNAN : ZToken := ⟨.reserved, "NaN".toList, 0⟩
def tPOS_INF : ZToken := ⟨.reserved, "INF".toList, 0⟩
def tTRUE : ZToken := ⟨.reserved, "T".toList, 0⟩
def tFALSE : ZToken := ⟨.reserved, "F".toList, 0⟩

/-- The backquote character (U+0060), opener and closer of URI literals. -/
def backquote : Char := Char.ofNat 96

/-- `zinc_tokenizer._is_letter` (ASCII letters; `EOF` handled by the
`Option`-free call sites, which only pass real characters). -/
def isLetter (c : Char) : Bool :=
  ('a' ≤ c && c ≤ 'z') || ('A' ≤ c && c ≤ 'Z')

/-- `zinc_tokenizer._is_digit`. -/
def isDigit (c : Char) : Bool := '0' ≤ c && c ≤ '9'

/-- `zinc_tokenizer._is_id_start`. -/
def isIdStart (c : Char) : Bool := 'a' ≤ c && c ≤ 'z'

/-- `zinc_tokenizer._is_id_part`. -/
def isIdPart (c : Char) : Bool := isLetter c || isDigit c || c = '_'

/-- Python `str.isupper()` on a single character.  (Python is
Unicode-aware; only ASCII characters are relevant to the embedded claims.) -/
def pyIsUpper (c : Char) : Bool := 'A' ≤ c && c ≤ 'Z'

/-- The whitespace skipped between tokens: space, tab, U+00A0
(`ZincTokenizer.__next__`, first loop). -/
def isSkipWs (c : Char) : Bool := c = ' ' || c = '\t' || c = ' '

/-- `ZincTokenizer._tokenize_id`: a run of id-part characters. -/
def tokenizeId (l : List Char) : ZToken × List Char :=
  (⟨.id, l.takeWhile isIdPart, 0⟩, l.dropWhile isIdPart)

/-- The digit/dot run of `ZincTokenizer._consume_decimal_unscientific`,
returning the consumed characters, the dot count and the rest. -/
def decimalRun (l : List Char) : List Char × Nat × List Char :=
  match l with
  | [] => ([], 0, [])
  | c :: rest =>
    if isDigit c || c = '.' then
      let (s, dots, r) := decimalRun rest
      (c :: s, (if c = '.' then dots + 1 else dots), r)
    else ([], 0, c :: rest)

/-- `ZincTokenizer._consume_decimal_unscientific`. -/
def consumeDecimalUnscientific (l : List Char) :
    Except TokErr (List Char × List Char) :=
  let (sign, l') := match l with
    | '-' :: rest => (['-'], rest)
    | _ => (([] : List Char), l)
  let (s, dots, r) := decimalRun l'
  if dots > 1 then .error (.scanErr "Invalid float")
  else .ok (sign ++ s, r)

/-- Consume one expected character (`ZincTokenizer._consume(expected)`). -/
def consumeExpect (c : Char) (l : List Char) : Except TokErr (List Char) :=
  match l with
  | c' :: rest => if c' = c then .ok rest else .error (.scanErr "Expected")
  | [] => .error (.scanErr "Expected")

/-- `ZincTokenizer._tokenize_coord`: `C ( decimal , [space] decimal )`. -/
def tokenizeCoord (l : List Char) : Except TokErr (ZToken × List Char) := do
  let l ← consumeExpect 'C' l
  let l ← consumeExpect '(' l
  let (lat, l) ← consumeDecimalUnscientific l
  let l ← consumeExpect ',' l
  let l := match l with
    | ' ' :: rest => rest
    | _ => l
  let (lng, l) ← consumeDecimalUnscientific l
  let l ← consumeExpect ')' l
  .ok (⟨.coord, ['C', '('] ++ lat ++ [','] ++ lng ++ [')'], 0⟩, l)

/-- `ZincTokenizer._tokenize_reserved`: a run of letters mapped onto the
reserved singletons; anything else raises `ZincTokenizerException`. -/
def tokenizeReserved (l : List Char) : Except TokErr (ZToken × List Char) :=
  let v := l.takeWhile isLetter
  let rest := l.dropWhile isLetter
  if v = "N".toList then .ok (tNULL, rest)
  else if v = "M".toList then .ok (tMARKER, rest)
  else if v = "R".toList then .ok (tREMOVE, rest)
  else if v = "NA".toList then .ok (tNA, rest)
  else if v = "NaN".toList then .ok (tNAN, rest)
  else if v = "T".toList then .ok (tTRUE, rest)
  else if v = "F".toList then .ok (tFALSE, rest)
  else if v = "INF".toList then .ok (tPOS_INF, rest)
  else .error (.scanErr "Invalid token")

/-- The hex-digit/underscore loop of `ZincTokenizer._tokenize_hex`.  The
source loops without consuming on `_`, and on loop exit it constructs
`Token(TokenType.HEX, ...)` although `TokenType` has no `HEX` member and
`Token.__init__` takes no `base` keyword: every exit path is an
`AttributeError` (or, on `_`, an infinite loop). -/
def tokenizeHexLoop (l : List Char) : TokErr :=
  match l with
  | c :: rest =>
    if c ∈ "0123456789abcdefABCDEF".toList then tokenizeHexLoop rest
    else if c = '_' then .hang
    else .attrErr "TokenType.HEX"
  | [] => .attrErr "TokenType.HEX"

/-- `ZincTokenizer._tokenize_hex` (reached on `0x`): consumes `0` and `x`,
then `tokenizeHexLoop` — never returns a token. -/
def tokenizeHex (l : List Char) : TokErr :=
  match l with
  | '0' :: 'x' :: rest => tokenizeHexLoop rest
  | _ => .scanErr "Expected"

/-- Helper: Python `str.endswith` on char lists. -/
def endsWith (l suffix : List Char) : Bool :=
  decide (l.reverse.take suffix.length = suffix.reverse)

/-- Whether the current character of a stream is one of the given
characters (Python `self._cur in chars`; false at `EOF`). -/
def curIn (l : List Char) (cs : List Char) : Bool :=
  match l with
  | c :: _ => c ∈ cs
  | [] => false

/-- The id-part loop of `ZincTokenizer._consume_timezone`: an id-part run;
right after a character that completes a `...GMT` suffix, a `+`/`-` and a
digit run are also taken, and the loop continues.  The `fuel` argument
bounds the iteration count; every iteration consumes at least one
character, so the `l.length + 1` supplied by the caller never runs out. -/
def timezoneLoop (fuel : Nat) (tz : List Char) (l : List Char) :
    List Char × List Char :=
  match fuel with
  | 0 => (tz, l)
  | fuel + 1 =>
    match l with
    | c :: rest =>
      if isIdPart c then
        let tz' := tz ++ [c]
        if curIn rest ['+', '-'] && endsWith tz' "GMT".toList then
          timezoneLoop fuel (tz' ++ rest.take 1 ++ (rest.drop 1).takeWhile isDigit)
            ((rest.drop 1).dropWhile isDigit)
        else timezoneLoop fuel tz' rest
      else (tz, c :: rest)
    | [] => (tz, [])

/-- `ZincTokenizer._consume_timezone` entry check (`self._cur != ' ' or not
self._peek.isupper()` raises). -/
def consumeTimezone (l : List Char) : Except TokErr (List Char × List Char) :=
  match l with
  | ' ' :: (c :: rest) =>
    if pyIsUpper c then .ok (timezoneLoop (rest.length + 2) [' '] (c :: rest))
    else .error (.scanErr "Expecting timezone!")
  | _ => .error (.scanErr "Expecting timezone!")

/-- The unit predicate local to `ZincTokenizer._tokenize_num`
(`c in ('%', '$', '/') or ord(c) > 128`). -/
def isUnit (c : Char) : Bool := c = '%' || c = '$' || c = '/' || c.toNat > 128

/-- The accumulation loop of `ZincTokenizer._tokenize_num`.  Returns the
lexeme, the `colons`/`dashes` counters, the `unit_index` and the rest of the
stream.  `s.length` plays the role of `len(s)`. -/
def numLoop (s : List Char) (colons dashes unitIndex : Nat) (exp : Bool)
    (l : List Char) : List Char × Nat × Nat × Nat × Bool × List Char :=
  match l with
  | [] => (s, colons, dashes, unitIndex, exp, [])
  | c :: rest =>
    if isDigit c then numLoop (s ++ [c]) colons dashes unitIndex exp rest
    else if exp && (c = '+' || c = '-') then
      numLoop (s ++ [c]) colons dashes unitIndex exp rest
    else if c = '-' then numLoop (s ++ [c]) colons (dashes + 1) unitIndex exp rest
    else if c = ':' && (rest.head?.elim false isDigit) then
      numLoop (s ++ [c]) (colons + 1) dashes unitIndex exp rest
    else if (exp || colons ≥ 1) && c = '+' then
      numLoop (s ++ [c]) colons dashes unitIndex exp rest
    else if c = '.' then
      if rest.head?.elim false isDigit then
        numLoop (s ++ [c]) colons dashes unitIndex exp rest
      else (s, colons, dashes, unitIndex, exp, c :: rest)
    else if (c = 'e' || c = 'E') &&
        (rest.head?.elim false fun p => p = '-' || p = '+' || isDigit p) then
      numLoop (s ++ [c]) colons dashes unitIndex true rest
    else if isLetter c || isUnit c then
      numLoop (s ++ [c]) colons dashes
        (if unitIndex = 0 then s.length else unitIndex) exp rest
    else if c = '_' then
      if unitIndex = 0 && rest.head?.elim false isDigit then
        numLoop s colons dashes unitIndex exp rest
      else if unitIndex = 0 then
        numLoop (s ++ [c]) colons dashes s.length exp rest
      else numLoop (s ++ [c]) colons dashes unitIndex exp rest
    else (s, colons, dashes, unitIndex, exp, c :: rest)

/-- `ZincTokenizer._tokenize_time`.  When the scan is not followed by an
uppercase `peek`, the Python function falls off its end and returns `None`
(its annotated return type `Token` notwithstanding); this is the `none`
result. -/
def tokenizeTime (s : List Char) (l : List Char) :
    Except TokErr (Option ZToken × List Char) :=
  let s := if s ≠ [] && s.get? 1 = some ':' then '0' :: s else s
  if l.get? 1 |>.elim false pyIsUpper then do
    let (tz, rest) ← consumeTimezone l
    .ok (some ⟨.time, s ++ tz, 0⟩, rest)
  else .ok (none, l)

/-- `ZincTokenizer._tokenize_datetime`. -/
def tokenizeDatetime (s : List Char) (l : List Char) :
    Except TokErr (Option ZToken × List Char) :=
  if l.get? 1 |>.elim false pyIsUpper then do
    let (tz, rest) ← consumeTimezone l
    .ok (some ⟨.datetime, s ++ tz, 0⟩, rest)
  else .ok (some ⟨.datetime, s, 0⟩, l)

/-- `ZincTokenizer._tokenize_num`: the `0x` prelude (which always fails, see
`tokenizeHex`), the scan loop, and the date/time/datetime/number
classification. -/
def tokenizeNum (l : List Char) : Except TokErr (Option ZToken × List Char) :=
  match l with
  | '0' :: 'x' :: _ => .error (tokenizeHex l)
  | _ =>
    let (s, colons, dashes, unitIndex, _, rest) := numLoop [] 0 0 0 false l
    if dashes = 2 && colons = 0 then .ok (some ⟨.date, s, 0⟩, rest)
    else if dashes = 0 && colons ≥ 1 then tokenizeTime s rest
    else if dashes ≥ 2 then tokenizeDatetime s rest
    else .ok (some ⟨.number, s, unitIndex⟩, rest)

/-- The pass-through escape characters of `ZincTokenizer._escape`
(`'bfnrt"$\'`\\'`, i.e. b f n r t double-quote dollar quote backquote
backslash). -/
def passThroughEscape (c : Char) : Bool :=
  c = 'b' || c = 'f' || c = 'n' || c = 'r' || c = 't' || c = '"' ||
  c = '$' || c = '\'' || c = backquote || c = '\\'

/-- Hex value of a char, if it is a hex digit (`int(s, base=16)`). -/
def hexDigit (c : Char) : Option Nat :=
  let n := c.toNat
  if 48 ≤ n && n ≤ 57 then some (n - 48)
  else if 97 ≤ n && n ≤ 102 then some (n - 87)
  else if 65 ≤ n && n ≤ 70 then some (n - 55)
  else none


theorem consumeExpect_ok {c : Char} {l r : List Char}
    (h : consumeExpect c l = .ok r) : l = c :: r := by
  cases l with
  | nil => simp [consumeExpect] at h
  | cons c' rest =>
    simp only [consumeExpect] at h
    split at h
    · cases h; simp_all
    · cases h

/-- `ZincTokenizer._escape`: consumes the backslash; pass-through escapes
are returned as the two-character sequence, `\uXXXX` is decoded via
`chr(int(xxxx, 16))`, anything else raises.  (When the stream ends inside
the four hex characters the Python loop appends the string `'EOF'`, and the
subsequent `int` call fails: a scan error either way.) -/
def pyEscape (l : List Char) : Except TokErr (List Char × List Char) := do
  let l1 ← consumeExpect '\\' l
  match l1 with
  | [] => .error (.scanErr "Invalid escape sequence")
  | c :: rest =>
    if passThroughEscape c then .ok (['\\', c], rest)
    else if c = 'u' then
      match rest with
      | h1 :: h2 :: h3 :: h4 :: rest4 =>
        match hexDigit h1, hexDigit h2, hexDigit h3, hexDigit h4 with
        | some a, some b, some d, some e =>
          .ok ([Char.ofNat (((a * 16 + b) * 16 + d) * 16 + e)], rest4)
        | _, _, _, _ => .error (.scanErr "Invalid unicode sequence")
      | _ => .error (.scanErr "Invalid unicode sequence")
    else .error (.scanErr "Invalid escape sequence")

/-- The scan loop of `ZincTokenizer._tokenize_str`: accumulates characters
until an unescaped close quote; a backslash is handled by `pyEscape` and
its result (verbatim two-character sequence, or decoded `\uXXXX`
character) is appended to the content.  `fuel` bounds the iterations; each
consumes at least one character. -/
def tokenizeStrAux (fuel : Nat) (acc : List Char) (l : List Char) :
    Except TokErr (List Char × List Char) :=
  match fuel with
  | 0 => .error .fuelOut
  | fuel + 1 =>
    match l with
    | [] => .error (.scanErr "Unexpected end of str")
    | c :: rest =>
      if c = '"' then .ok (acc, rest)
      else if c = '\\' then
        match pyEscape (c :: rest) with
        | .ok (s, r) => tokenizeStrAux fuel (acc ++ s) r
        | .error e => .error e
      else tokenizeStrAux fuel (acc ++ [c]) rest

/-- `ZincTokenizer._tokenize_str`: consume the opening quote, scan the
content, produce a `STRING` token. -/
def tokenizeStr (l : List Char) : Except TokErr (ZToken × List Char) := do
  let l ← consumeExpect '"' l
  let (content, rest) ← tokenizeStrAux (l.length + 1) [] l
  .ok (⟨.string, content, 0⟩, rest)

/-- The ref-character predicate local to `ZincTokenizer._tokenize_ref`. -/
def isRefChar (c : Char) : Bool :=
  isLetter c || isDigit c || c ∈ ['_', ':', '-', '.', '~']

/-- The scan loop of `ZincTokenizer._tokenize_ref`: a run of ref
characters; on a space followed by a quote, the quoted display name is
scanned with `_tokenize_str` and appended to the lexeme surrounded by
quotes, and the loop continues.  `fuel` bounds the iterations; each
consumes at least one character. -/
def tokenizeRefLoop (fuel : Nat) (s : List Char) (l : List Char) :
    Except TokErr (List Char × List Char) :=
  match fuel with
  | 0 => .error .fuelOut
  | fuel + 1 =>
    match l with
    | [] => .ok (s, [])
    | c :: rest =>
      if isRefChar c then tokenizeRefLoop fuel (s ++ [c]) rest
      else if c = ' ' && rest.head? = some '"' then
        match tokenizeStr rest with
        | .ok (t, r) => tokenizeRefLoop fuel (s ++ [' ', '"'] ++ t.val ++ ['"']) r
        | .error e => .error e
      else .ok (s, c :: rest)

/-- `ZincTokenizer._tokenize_ref`: consume `@`, scan the lexeme. -/
def tokenizeRef (l : List Char) : Except TokErr (ZToken × List Char) := do
  let l ← consumeExpect '@' l
  let (s, rest) ← tokenizeRefLoop (l.length + 1) [] l
  .ok (⟨.ref, s, 0⟩, rest)

/-- The reserved URI escape characters (`':/?#[]@\\&=;'`). -/
def uriReserved : List Char := ":/?#[]@\\&=;".toList

/-- The scan loop of `ZincTokenizer._tokenize_uri`.  On a backslash whose
peek is a reserved URI character the source executes `s._consume()` where
`s` is the content list — an `AttributeError`, not the verbatim retention
the surrounding code intends.  Other escapes go through `_escape` and its
result is appended; newline or end of input before the closing backquote
is a scan error.  `fuel` bounds the iterations; each consumes at least one
character. -/
def tokenizeUriLoop (fuel : Nat) (s : List Char) (l : List Char) :
    Except TokErr (List Char × List Char) :=
  match fuel with
  | 0 => .error .fuelOut
  | fuel + 1 =>
    match l with
    | [] => .error (.scanErr "Unexpected end of URI")
    | c :: rest =>
      if c = backquote then .ok (s, rest)
      else if c = '\n' then .error (.scanErr "Unexpected end of URI")
      else if c = '\\' then
        if rest.head?.elim false (· ∈ uriReserved) then
          .error (.attrErr "list object has no attribute _consume")
        else
          match pyEscape (c :: rest) with
          | .ok (e, r) => tokenizeUriLoop fuel (s ++ e) r
          | .error er => .error er
      else tokenizeUriLoop fuel (s ++ [c]) rest

/-- `ZincTokenizer._tokenize_uri`: consume the opening backquote, scan. -/
def tokenizeUri (l : List Char) : Except TokErr (ZToken × List Char) := do
  let l ← consumeExpect backquote l
  let (s, rest) ← tokenizeUriLoop (l.length + 1) [] l
  .ok (⟨.uri, s, 0⟩, rest)

/-- `ZincTokenizer._tokenize_symbol`.  For `<<`, `<=`, `>>` and `>=` the
source calls `self.consume(...)`, but the tokenizer has no method named
`consume` (only `_consume`): those four compositions raise
`AttributeError`. -/
def tokenizeSymbol (l : List Char) : Except TokErr (ZToken × List Char) :=
  match l with
  | [] => .error (.scanErr "Unexpected symbol")
  | c :: rest =>
    if c = ',' then .ok (tCOMMA, rest)
    else if c = ':' then .ok (tCOLON, rest)
    else if c = ';' then .ok (tSEMICOLON, rest)
    else if c = '[' then .ok (tLBRACKET, rest)
    else if c = ']' then .ok (tRBRACKET, rest)
    else if c = '{' then .ok (tLBRACE, rest)
    else if c = '}' then .ok (tRBRACE, rest)
    else if c = '(' then .ok (tLPAREN, rest)
    else if c = ')' then .ok (tRPAREN, rest)
    else if c = '<' then
      if rest.head? = some '<' then .error (.attrErr "ZincTokenizer has no attribute consume")
      else if rest.head? = some '=' then .error (.attrErr "ZincTokenizer has no attribute consume")
      else .ok (tLT, rest)
    else if c = '>' then
      if rest.head? = some '>' then .error (.attrErr "ZincTokenizer has no attribute consume")
      else if rest.head? = some '=' then .error (.attrErr "ZincTokenizer has no attribute consume")
      else .ok (tGT, rest)
    else if c = '-' then
      if rest.head? = some '>' then .ok (tARROW, rest.tail)
      else .ok (tMINUS, rest)
    else if c = '=' then
      if rest.head? = some '=' then .ok (tEQUALS, rest.tail)
      else .ok (tASSIGN, rest)
    else if c = '!' then
      if rest.head? = some '=' then .ok (tNOTEQUALS, rest.tail)
      else .ok (tBANG, rest)
    else if c = '/' then .ok (tSLASH, rest)
    else .error (.scanErr "Unexpected symbol")

/-- `ZincTokenizer.__next__`: skip insignificant whitespace, then dispatch
on the current character.  The `none` token result models the `None` that
`_tokenize_time` can return (see `tokenizeTime`). -/
def nextToken (l : List Char) : Except TokErr (Option ZToken × List Char) :=
  let l := l.dropWhile isSkipWs
  match l with
  | [] => .ok (some tEOF, [])
  | c :: rest =>
    if c = '\n' || c = '\r' then
      if c = '\r' && rest.head? = some '\n' then .ok (some tNEWLINE, rest.tail)
      else .ok (some tNEWLINE, rest)
    else if isIdStart c then
      let (t, r) := tokenizeId (c :: rest)
      .ok (some t, r)
    else if c = 'C' && rest.head? = some '(' then do
      let (t, r) ← tokenizeCoord (c :: rest)
      .ok (some t, r)
    else if pyIsUpper c then do
      let (t, r) ← tokenizeReserved (c :: rest)
      .ok (some t, r)
    else if c = '"' then do
      let (t, r) ← tokenizeStr (c :: rest)
      .ok (some t, r)
    else if c = '@' then do
      let (t, r) ← tokenizeRef (c :: rest)
      .ok (some t, r)
    else if c = backquote then do
      let (t, r) ← tokenizeUri (c :: rest)
      .ok (some t, r)
    else if isDigit c || (c = '-' && rest.head?.elim false isDigit) then
      tokenizeNum (c :: rest)
    else do
      let (t, r) ← tokenizeSymbol (c :: rest)
      .ok (some t, r)

/-- Numeric values (`float` in the Python source: `dtypes.Number.value`).
Finite values are exact rationals; `inf`, `negInf` and `nan` mirror
`float("inf")`, `float("-inf")` and `float("nan")`. -/
inductive ZNum where
  | finite (q : ℚ)
  | inf
  | negInf
  | nan
deriving DecidableEq, Repr

/-- Digits-to-Nat helper for `pyFloat`. -/
def digitsVal (l : List Char) : Nat :=
  l.foldl (fun acc c => acc * 10 + (c.toNat - '0'.toNat)) 0

/-- Python `float(raw)` restricted to the decimal forms that number-token
prefixes can take: optional sign, digits with at most one dot, optional
exponent.  `none` models `ValueError`. -/
def pyFloat (l : List Char) : Option ZNum :=
  let (sign, l) : ℚ × List Char := match l with
    | '-' :: rest => (-1, rest)
    | '+' :: rest => (1, rest)
    | _ => (1, l)
  let intPart := l.takeWhile isDigit
  let l := l.dropWhile isDigit
  let (fracPart, l) : List Char × List Char := match l with
    | '.' :: rest => (rest.takeWhile isDigit, rest.dropWhile isDigit)
    | _ => ([], l)
  if intPart.length + fracPart.length = 0 then none
  else
    let mant : ℚ := sign * (digitsVal (intPart ++ fracPart) : ℚ) /
      ((10 : ℚ) ^ fracPart.length)
    match l with
    | [] => some (.finite mant)
    | 'e' :: rest | 'E' :: rest =>
      let (esign, rest) : Int × List Char := match rest with
        | '-' :: r => (-1, r)
        | '+' :: r => (1, r)
        | _ => (1, rest)
      let eDigits := rest.takeWhile isDigit
      if eDigits.length = 0 || (rest.dropWhile isDigit) ≠ [] then none
      else some (.finite (mant * (10 : ℚ) ^ (esign * (digitsVal eDigits : Int))))
    | _ => none

/-- The scalar model of `dtypes.py`.  Sentinels carry no payload;
`number` is `dtypes.Number(value, units)`; `ref` stores the display name
after the quote stripping of `Ref.__init__`; `datetime` models
`dtypes.Datetime` with the `pd.Timestamp` instant kept as its ISO-8601
text (the parser feeds it `pd.to_datetime(text)` and the emitter renders
`value.isoformat()`; the external pandas round trip is the identity on
such text).  `pylist`/`pydict` model the plain Python `list`/`dict`
returned by `_parse_list`/`_parse_dict` when they appear in value
position. -/
inductive Scalar where
  | null
  | marker
  | remove
  | na
  | bool (b : Bool)
  | number (value : ZNum) (units : Option (List Char))
  | str (value : List Char)
  | uri (value : List Char)
  | ref (uid : List Char) (displayName : Option (List Char))
  | datetime (value : List Char) (tz : Option (List Char))
  | coord (lat lng : List Char)
  | pylist (elems : List Scalar)
  | pydict (entries : List (List Char × Scalar))

/-- Insertion-ordered dict (`collections` semantics of a Python `dict`):
tag name to scalar. -/
abbrev ZDict := List (List Char × Scalar)

/-- Python `db[k] = v`: replace in place if the key exists, else append. -/
def dictSet (d : ZDict) (k : List Char) (v : Scalar) : ZDict :=
  match d with
  | [] => [(k, v)]
  | (k', v') :: rest =>
    if k' = k then (k, v) :: rest else (k', v') :: dictSet rest k v

/-- Python `k in d`. -/
def dictHas (d : ZDict) (k : List Char) : Bool :=
  d.any fun kv => kv.1 = k

/-- Python `d.get(k)` / `d[k]`. -/
def dictGet (d : ZDict) (k : List Char) : Option Scalar :=
  (d.find? fun kv => kv.1 = k).map Prod.snd

/-- Python `str.strip('"')`: remove all leading and trailing double
quotes. -/
def stripQuotes (s : List Char) : List Char :=
  ((s.dropWhile (· = '"')).reverse.dropWhile (· = '"')).reverse

/-- `dtypes.Ref.__init__`: `display_name` is `None` unless the argument is
truthy (non-`None`, non-empty), in which case it is the argument with
surrounding quotes stripped. -/
def refDisplay (display : Option (List Char)) : Option (List Char) :=
  match display with
  | none => none
  | some s => if s = [] then none else some (stripQuotes s)

/-- `dtypes.Ref.__init__` packaged as a `Scalar`. -/
def mkRef (uid : List Char) (display : Option (List Char)) : Scalar :=
  .ref uid (refDisplay display)

/-- `dtypes.Ref.__str__`: `@uid`, and the display name re-quoted after a
space when it is not `None`. -/
def refStr (uid : List Char) (displayName : Option (List Char)) : List Char :=
  '@' :: uid ++ (match displayName with
    | none => []
    | some d => ' ' :: '"' :: d ++ ['"'])

/-- Python `str.islower()` on a single character (`tag_name[0].islower()`). -/
def pyIsLower (c : Char) : Bool := 'a' ≤ c && c ≤ 'z'

/-- `val.split(" ", maxsplit=1)` (`ZincParser._parse_ref`). -/
def splitFirstSpace (l : List Char) : List Char × Option (List Char) :=
  match l with
  | [] => ([], none)
  | c :: rest =>
    if c = ' ' then ([], some rest)
    else
      let (a, b) := splitFirstSpace rest
      (c :: a, b)

/-- `val.split(" ")` (`ZincParser._parse_datetime`). -/
def splitSpaces (l : List Char) : List (List Char) :=
  match l with
  | [] => [[]]
  | c :: rest =>
    let parts := splitSpaces rest
    if c = ' ' then [] :: parts
    else
      match parts with
      | p :: ps => (c :: p) :: ps
      | [] => [[c]]

/-- Errors surfacing from `ZincParser` and `GridBuilder`.
`scan` wraps a `ZincTokenizerException`/tokenizer-level `AttributeError`
surfacing while the parser pulls a token; `parseErr` is
`ZincParseException`; `errorGrid` is `ZincErrorGridException`; the
remaining Python exception kinds appear where the source has attribute,
key, value or type slips.  `fuelOut` is an artifact of the fuel-indexed
embedding of the source's unbounded loops and never occurs for
sufficient fuel. -/
inductive ZErr where
  | scan (e : TokErr)
  | parseErr (msg : String)
  | errorGrid (msg : String)
  | attrErr (msg : String)
  | keyErr (msg : String)
  | valueErr (msg : String)
  | typeErr (msg : String)
  | notImplemented (msg : String)
  | fuelOut
deriving DecidableEq, Repr

/-- Parser state: `self._cur`, `self._peek` (both possibly the Python
`None` the tokenizer can yield) and the unconsumed character stream of the
tokenizer the parser owns. -/
structure PState where
  cur : Option ZToken
  peek : Option ZToken
  rest : List Char
deriving DecidableEq, Repr

/-- `ZincParser._consume`: shift `peek` into `cur` and pull the next token
from the tokenizer. -/
def pconsume (st : PState) : Except ZErr PState :=
  match nextToken st.rest with
  | .error e => .error (.scan e)
  | .ok (t, r) => .ok ⟨st.peek, t, r⟩

/-- `ZincParser.__init__`: two initial `_consume` calls. -/
def mkPState (l : List Char) : Except ZErr PState := do
  let st ← pconsume ⟨none, none, l⟩
  pconsume st

/-- Access `self._cur` for an attribute read (`AttributeError` on the
`None` token). -/
def curTok (st : PState) : Except ZErr ZToken :=
  match st.cur with
  | some t => .ok t
  | none => .error (.attrErr "NoneType has no attribute ttype")

/-- Access `self._peek` for an attribute read. -/
def peekTok (st : PState) : Except ZErr ZToken :=
  match st.peek with
  | some t => .ok t
  | none => .error (.attrErr "NoneType has no attribute ttype")

/-- `ZincParser._verify_type`. -/
def verifyType (st : PState) (e : TType) : Except ZErr Unit := do
  let t ← curTok st
  if t.ttype = e then .ok () else .error (.parseErr "Expected type")

/-- `ZincParser._verify_eq` (Python `!=` is value equality, safe on
`None`). -/
def verifyEq (st : PState) (e : ZToken) : Except ZErr Unit :=
  if st.cur = some e then .ok () else .error (.parseErr "Expected token")

/-- `ZincParser._consume_t`. -/
def consumeT (st : PState) (e : TType) : Except ZErr PState := do
  let _ ← verifyType st e
  pconsume st

/-- `ZincParser._consume_i`. -/
def consumeI (st : PState) (e : ZToken) : Except ZErr PState := do
  let _ ← verifyEq st e
  pconsume st

/-- `ZincParser._consume_str`. -/
def consumeStr (st : PState) : Except ZErr (List Char × PState) := do
  let _ ← verifyType st .string
  let t ← curTok st
  let st ← consumeT st .string
  .ok (t.val, st)

/-- `ZincParser._consume_num` (returns the raw lexeme `self._cur.val`,
a string, despite its name). -/
def consumeNum (st : PState) : Except ZErr (List Char × PState) := do
  let _ ← verifyType st .number
  let t ← curTok st
  let st ← consumeT st .number
  .ok (t.val, st)

/-- `ZincParser._consume_tag_name`. -/
def consumeTagName (st : PState) : Except ZErr (List Char × PState) := do
  let _ ← verifyType st .id
  let t ← curTok st
  if t.val ≠ [] && (t.val.head?.elim false pyIsLower) then do
    let st ← consumeT st .id
    .ok (t.val, st)
  else .error (.parseErr "Invalid dict tag name")

/-- `ZincParser._parse_coord`.  `_consume_num` returns the lexeme string,
so the final `Coord(lat.val, lng.val)` is an `AttributeError` (`str` has
no attribute `val`). -/
def parseCoord (idStr : List Char) (st : PState) :
    Except ZErr (Scalar × PState) := do
  if idStr = "C".toList then do
    let st ← consumeI st tLPAREN
    let (_, st) ← consumeNum st
    let st ← consumeI st tCOMMA
    let (_, st) ← consumeNum st
    let _ ← consumeI st tRPAREN
    .error (.attrErr "str has no attribute val")
  else .error (.parseErr "Expected C for coord")

/-- `ZincParser._parse_xstr`: unconditionally `NotImplementedError`. -/
def parseXstr (st : PState) : Except ZErr (Scalar × PState) :=
  .error (.notImplemented "XStr support not implemented yet!")

/-- `ZincParser._parse_ref`: split the lexeme on the first space; the
right half (if any) becomes the display-name argument of `Ref`. -/
def parseRef (st : PState) : Except ZErr (Scalar × PState) := do
  let t ← curTok st
  let parts := splitFirstSpace t.val
  let st ← consumeT st .ref
  .ok (mkRef parts.1 parts.2, st)

/-- `ZincParser._parse_string`. -/
def parseString (st : PState) : Except ZErr (Scalar × PState) := do
  let t ← curTok st
  let st ← pconsume st
  .ok (.str t.val, st)

/-- `ZincParser._parse_datetime`: split on spaces; two parts give an
instant and a timezone word, one part a bare instant, more are an error.
`pd.to_datetime(parts[0])` is kept as the ISO-8601 text itself. -/
def parseDatetime (st : PState) : Except ZErr (Scalar × PState) := do
  let t ← curTok st
  let parts := splitSpaces t.val
  let st ← pconsume st
  match parts with
  | [ts, tz] => .ok (.datetime ts (some tz), st)
  | [ts] => .ok (.datetime ts none, st)
  | _ => .error (.parseErr "Invalid datetime")

/-- `ZincParser._parse_list`.  The source calls `self._consume(tokens.LBRACKET)`,
but `ZincParser._consume` takes no argument: every list value raises
`TypeError` on its first statement. -/
def parseListV (st : PState) : Except ZErr (Scalar × PState) :=
  .error (.typeErr "_consume takes 1 positional argument but 2 were given")

mutual

/-- `ZincParser._parse_val`. -/
def parseVal (fuel : Nat) (st : PState) : Except ZErr (Scalar × PState) :=
  match fuel with
  | 0 => .error .fuelOut
  | fuel + 1 => do
    let t ← curTok st
    if t.ttype = .id then do
      let st' ← consumeT st .id
      if st'.cur = some tLPAREN then do
        let p ← peekTok st'
        if p.ttype = .number then parseCoord t.val st'
        else parseXstr st'
      else .error (.parseErr "Unexpected identifier")
    else if t.ttype = .reserved then do
      let st' ← consumeT st .reserved
      if t.val = "T".toList then .ok (.bool true, st')
      else if t.val = "F".toList then .ok (.bool false, st')
      else if t.val = "N".toList then .ok (.null, st')
      else if t.val = "M".toList then .ok (.marker, st')
      else if t.val = "NA".toList then .ok (.na, st')
      else if t.val = "R".toList then .ok (.remove, st')
      else .error (.parseErr "Unrecognized reserved token")
    else if t.ttype = .number then
      let raw := if t.unitIndex > 0 then t.val.take t.unitIndex else t.val
      let units := if t.unitIndex > 0 then some (t.val.drop t.unitIndex) else none
      match pyFloat raw with
      | none => .error (.parseErr "Invalid numeric token")
      | some q => do
        let st' ← consumeT st .number
        .ok (.number q units, st')
    else if t.ttype = .ref then parseRef st
    else if t.ttype = .string then parseString st
    else if st.cur = some tMINUS then
      -- `-INF`: after consuming the minus, the source evaluates `tokens.ID`,
      -- which does not exist in tokens.py: AttributeError (the intended
      -- `raise NotImplementedError("No NEG_INF yet!")` is never reached).
      match st.peek with
      | none => .error (.attrErr "NoneType has no attribute val")
      | some p =>
        if p.val = "INF".toList then do
          let _ ← consumeI st tMINUS
          .error (.attrErr "module tokens has no attribute ID")
        else .error (.parseErr "Unexpected token")
    else if st.cur = some tLBRACKET then parseListV st
    else if st.cur = some tLBRACE then do
      let (d, st') ← parseDict fuel st
      .ok (.pydict d, st')
    else if st.cur = some tDOUBLELT then
      .error (.notImplemented "Nested grids not supported!")
    else if t.ttype = .datetime then parseDatetime st
    else .error (.parseErr "Unexpected token")

/-- `ZincParser._parse_dict`. -/
def parseDict (fuel : Nat) (st : PState) : Except ZErr (ZDict × PState) :=
  match fuel with
  | 0 => .error .fuelOut
  | fuel + 1 => do
    let braces := st.cur = some tLBRACE
    let st ← if braces then consumeI st tLBRACE else pure st
    let (db, st) ← parseDictLoop fuel [] st
    let st ← if braces then consumeI st tRBRACE else pure st
    .ok (db, st)

/-- The `while self._cur.ttype is TokenType.ID` loop of
`ZincParser._parse_dict`: a tag name, optionally `: value`, bound into the
insertion-ordered dict (a bare name binds `MARKER`). -/
def parseDictLoop (fuel : Nat) (db : ZDict) (st : PState) :
    Except ZErr (ZDict × PState) :=
  match fuel with
  | 0 => .error .fuelOut
  | fuel + 1 => do
    let t ← curTok st
    if t.ttype = .id then do
      let (idstr, st) ← consumeTagName st
      if idstr ≠ [] && (idstr.head?.elim false pyIsLower) then do
        let (v, st) ←
          if st.cur = some tCOLON then do
            let st ← consumeI st tCOLON
            parseVal fuel st
          else pure (Scalar.marker, st)
        parseDictLoop fuel (dictSet db idstr v) st
      else .error (.parseErr "Invalid dict tag name")
    else .ok (db, st)

end

/-- Generic association-list update with Python-dict semantics
(replace in place, else append). -/
def assocSet {α : Type} (d : List (List Char × α)) (k : List Char) (v : α) :
    List (List Char × α) :=
  match d with
  | [] => [(k, v)]
  | (k', v') :: rest =>
    if k' = k then (k, v) :: rest else (k', v') :: assocSet rest k v

/-- Python `d[k]` lookup on an association list. -/
def assocGet {α : Type} (d : List (List Char × α)) (k : List Char) : Option α :=
  match d with
  | [] => none
  | (k', v') :: rest => if k' = k then some v' else assocGet rest k

/-- Python `d.pop(k)`: the removed value and the remaining dict. -/
def assocPop {α : Type} (d : List (List Char × α)) (k : List Char) :
    Option (α × List (List Char × α)) :=
  match d with
  | [] => none
  | (k', v') :: rest =>
    if k' = k then some (v', rest)
    else (assocPop rest k).map fun p => (p.1, (k', v') :: p.2)

/-- A cell as produced by the parser's row loop: `None` for an empty cell,
a scalar otherwise. -/
abbrev Cell := Option Scalar

/-- `grid.GridBuilder`: version, grid meta (initially Python `None`),
insertion-ordered column meta, and per-column cell lists. -/
structure GridBuilder where
  version : Nat
  gridMeta : Option ZDict := none
  colMeta : List (List Char × ZDict) := []
  cols : List (List Char × List Cell) := []

/-- `GridBuilder.add_meta`. -/
def GridBuilder.addMeta (gb : GridBuilder) (d : ZDict) : GridBuilder :=
  { gb with gridMeta := some d }

/-- `GridBuilder.add_col`: binds the column meta and resets the column's
cell list. -/
def GridBuilder.addCol (gb : GridBuilder) (name : List Char) (meta : ZDict) :
    GridBuilder :=
  { gb with colMeta := assocSet gb.colMeta name meta,
            cols := assocSet gb.cols name [] }

/-- The `zip(self.cols, row)` of `GridBuilder.add_row`: pair columns with
cells positionally; surplus cells are dropped, surplus columns are left
untouched. -/
def zipAppendCells (cols : List (List Char × List Cell)) (row : List Cell) :
    List (List Char × List Cell) :=
  match cols, row with
  | [], _ => []
  | cs, [] => cs
  | (k, vs) :: cs, v :: rest => (k, vs ++ [v]) :: zipAppendCells cs rest

/-- `GridBuilder.add_row`. -/
def GridBuilder.addRow (gb : GridBuilder) (row : List Cell) : GridBuilder :=
  { gb with cols := zipAppendCells gb.cols row }

/-- A cell held by the tabular back-end (the pandas DataFrame of
`grid.py`): a missing value (`None`/`NaN`), a scalar object stored as-is,
or a numeric/boolean/string value produced by type sanitization. -/
inductive PCell where
  | missing
  | obj (v : Scalar)
  | pynum (v : ZNum)
  | pybool (b : Bool)
  | pystr (s : List Char)

/-- The dataframe-like container of the tabular back-end
(out of scope per the spec, referenced through its interface): an index
column and named columns in order.  Index entries are the ISO-8601 texts of
the `pd.Timestamp` values. -/
structure PFrame where
  indexName : List Char
  index : List (List Char)
  cols : List (List Char × List PCell)

/-- `grid.Grid.__init__`. -/
structure Grid where
  version : Nat
  gridInfo : Option ZDict
  columnInfo : List (List Char × ZDict)
  data : PFrame

/-- Python `str(n)` for a natural number. -/
def natChars (n : Nat) : List Char := Nat.toDigits 10 n

/-- Python `str(i)` for an integer. -/
def intChars (i : Int) : List Char :=
  if i < 0 then '-' :: natChars i.natAbs else natChars i.natAbs

/-- Modelled from the spec: the decimal rendering of a float value
(`str(float)` — an external formatting routine).  Integral values render
with a trailing `.0` as CPython does; other rationals render as an exact
quotient, a stand-in no theorem below evaluates. -/
def znumStr (v : ZNum) : List Char :=
  match v with
  | .finite q =>
    if q.den = 1 then intChars q.num ++ ".0".toList
    else intChars q.num ++ '/' :: natChars q.den
  | .inf => "inf".toList
  | .negInf => "-inf".toList
  | .nan => "nan".toList

/-- Python `str()` of a scalar (`dtypes.*.__str__`).  The valueless
sentinels inherit `Scalar.__str__`, which prints their `value` — `None`.
The container cases stand in for Python's list/dict repr; the parser can
never produce a `pylist` (`_parse_list` always raises `TypeError`), and no
theorem below evaluates these two cases. -/
def scalarStr (v : Scalar) : List Char :=
  match v with
  | .null | .marker | .remove | .na => "None".toList
  | .bool b => if b then "True".toList else "False".toList
  | .number n u => znumStr n ++ (match u with | some us => us | none => [])
  | .str s => s
  | .uri s => s
  | .ref uid d => refStr uid d
  | .datetime ts tz =>
    ts ++ (match tz with
      | some t => if t = [] then [] else ' ' :: t
      | none => [])
  | .coord lat lng => "C(".toList ++ lat ++ ',' :: lng ++ [')']
  | .pylist _ => "[…]".toList
  | .pydict _ => "\x7b…\x7d".toList

/-- `grid._stringify_tag`. -/
def stringifyTag (k : List Char) (v : Scalar) : List Char :=
  match v with
  | .marker => k
  | .str s => k ++ ':' :: '"' :: s ++ ['"']
  | _ => k ++ ':' :: scalarStr v

/-- Python `sep.join(parts)`. -/
def joinSep (sep : List Char) (parts : List (List Char)) : List Char :=
  match parts with
  | [] => []
  | [p] => p
  | p :: rest => p ++ sep ++ joinSep sep rest

/-- `grid.Grid._grid_info_str`.  When `grid_info` is Python `None` (a grid
built without a meta line), `_stringify_tags(None)` raises
`AttributeError` on `None.items()`. -/
def gridInfoStr (g : Grid) : Except ZErr (List Char) :=
  match g.gridInfo with
  | none => .error (.attrErr "NoneType has no attribute items")
  | some d =>
    .ok (joinSep [' ']
      (("ver:\"".toList ++ natChars g.version ++ ".0\"".toList) ::
        d.map fun kv => stringifyTag kv.1 kv.2))

/-- `grid.Grid._column_info_str`. -/
def columnInfoStr (g : Grid) : List Char :=
  joinSep [','] (g.columnInfo.map fun kv =>
    joinSep [' '] (kv.1 :: kv.2.map fun t => stringifyTag t.1 t.2))

/-- Python `str()` of a dataframe cell (as `astype(str)` / `to_csv`
see it). -/
def cellStr (c : PCell) : List Char :=
  match c with
  | .missing => []
  | .obj v => scalarStr v
  | .pynum v => znumStr v
  | .pybool b => if b then "True".toList else "False".toList
  | .pystr s => s

/-- `grid.Grid._zinc_format_data`: render the index to ISO text with the
`tz` column tag appended, and append declared `unit`s to non-missing cells
of the corresponding columns. -/
def zincFormatData (g : Grid) : PFrame :=
  match g.columnInfo with
  | [] => g.data
  | c0 :: restMeta =>
    let idx := g.data.index.map fun t =>
      t ++ (match dictGet c0.2 "tz".toList with
        | some tzv => ' ' :: scalarStr tzv
        | none => [])
    let cols := (restMeta.zip g.data.cols).map fun (meta, col) =>
      match dictGet meta.2 "unit".toList with
      | some unitv =>
        (col.1, col.2.map fun c =>
          match c with
          | .missing => .missing
          | c => .pystr (cellStr c ++ scalarStr unitv))
      | none => col
    ⟨g.data.indexName, idx, cols⟩

/-- Modelled from the spec: minimal CSV field quoting of the external
`DataFrame.to_csv` (quote a field containing a comma, a quote, or a line
break; double interior quotes). -/
def csvField (s : List Char) : List Char :=
  if s.any fun c => c = ',' || c = '"' || c = '\n' || c = '\r' then
    '"' :: (s.map fun c => if c = '"' then ['"', '"'] else [c]).join ++ ['"']
  else s

/-- Modelled from the spec: the external `DataFrame.to_csv(header=False)` —
one line per row, index first, missing cells empty, `\n` terminated. -/
def toCsv (df : PFrame) : List Char :=
  (List.range df.index.length).map (fun i =>
    joinSep [','] ((csvField (df.index.get? i |>.getD [])) ::
      df.cols.map fun col =>
        match col.2.get? i with
        | some .missing => []
        | some c => csvField (cellStr c)
        | none => []) ++ ['\n'])
  |>.join

/-- `grid.Grid.to_zinc` with `path=None`:
`"\n".join([gridinfostr, columninfostr, df.to_csv(header=False)])`. -/
def toZincE (g : Grid) : Except ZErr (List Char) := do
  let gis ← gridInfoStr g
  let cis := columnInfoStr g
  let df := zincFormatData g
  .ok (gis ++ '\n' :: cis ++ '\n' :: toCsv df)

/-- `grid._pandasify`: `None`/`Null`/`Na` to missing, `Number`/`String` to
their raw value, anything else to its `str()`. -/
def pandasifyCell (c : PCell) : PCell :=
  match c with
  | .missing => .missing
  | .obj .null => .missing
  | .obj .na => .missing
  | .obj (.number v _) => .pynum v
  | .obj (.str s) => .pystr s
  | .obj v => .pystr (scalarStr v)
  | .pynum v => .pynum v
  | .pybool b => .pystr (if b then "True".toList else "False".toList)
  | .pystr s => .pystr s

/-- `grid._pandasify_bool`: booleans to their value, `Null` and `None` to
missing, anything else unchanged. -/
def pandasifyBool (c : PCell) : PCell :=
  match c with
  | .obj (.bool b) => .pybool b
  | .obj .null => .missing
  | .missing => .missing
  | c => c

/-- Modelled from the spec: the external `pd.to_numeric` on one cell —
numbers and missing pass, decimal strings convert, booleans coerce to 0/1,
other objects raise. -/
def pdToNumeric (c : PCell) : Except ZErr PCell :=
  match c with
  | .missing => .ok .missing
  | .pynum v => .ok (.pynum v)
  | .pystr s =>
    match pyFloat s with
    | some q => .ok (.pynum q)
    | none => .error (.valueErr "Unable to parse string")
  | .pybool b => .ok (.pynum (.finite (if b then 1 else 0)))
  | .obj _ => .error (.typeErr "to_numeric on object")

/-- Modelled from the spec: the external categorical `astype` — values
among the declared categories stay, anything else becomes missing. -/
def toCategorical (cats : List (List Char)) (c : PCell) : PCell :=
  match c with
  | .pystr s => if cats.any (· = s) then .pystr s else .missing
  | .missing => .missing
  | _ => .missing

def PCell.isMissing (c : PCell) : Bool :=
  match c with
  | .missing => true
  | _ => false

def PCell.isNumberObj (c : PCell) : Bool :=
  match c with
  | .obj (.number _ _) => true
  | _ => false

def PCell.isBoolObj (c : PCell) : Bool :=
  match c with
  | .obj (.bool _) => true
  | _ => false

/-- Generic split on a separator character (Python `str.split(sep)`). -/
def splitSep (sep : Char) (l : List Char) : List (List Char) :=
  match l with
  | [] => [[]]
  | c :: rest =>
    let parts := splitSep sep rest
    if c = sep then [] :: parts
    else
      match parts with
      | p :: ps => (c :: p) :: ps
      | [] => [[c]]

/-- `sample = series[:1000].dropna()` of `grid._sanitize_series`. -/
def heuristicSample (cells : List PCell) : List PCell :=
  (cells.take 1000).filter fun c => !c.isMissing

/-- `grid._sanitize_series`: coerce a column against its meta — `kind
Number` goes numeric, an `enum` goes categorical, `kind Str` is untouched;
without a `kind`, sample up to 1000 leading non-missing cells and coerce
numeric or boolean after the first `Number`/`Boolean` found. -/
def sanitizeSeries (cells : List PCell) (colinfo : ZDict) :
    Except ZErr (List PCell) :=
  match dictGet colinfo "kind".toList with
  | some kind =>
    if (match kind with | .str v => v = "Number".toList | _ => false : Bool) then
      (cells.map pandasifyCell).mapM pdToNumeric
    else if dictHas colinfo "enum".toList then
      match dictGet colinfo "enum".toList with
      | some enumv =>
        let cats := splitSep ',' (scalarStr enumv)
        .ok ((cells.map pandasifyCell).map (toCategorical cats))
      | none => .ok cells
    else .ok cells
  | none =>
    if (heuristicSample cells).isEmpty then .ok cells
    else
      match (heuristicSample cells).find? fun v => v.isNumberObj || v.isBoolObj with
      | some v =>
        if v.isNumberObj then (cells.map pandasifyCell).mapM pdToNumeric
        else .ok (cells.map pandasifyBool)
      | none => .ok cells

/-- The id-tag renaming of `GridBuilder.build`: a column whose meta carries
`id` is renamed to the `str()` of that ref. -/
def renameCols (cols : List (List Char × List PCell))
    (colMeta : List (List Char × ZDict)) : List (List Char × List PCell) :=
  cols.map fun col =>
    match assocGet colMeta col.1 with
    | some meta =>
      (match dictGet meta "id".toList with
        | some idv => (scalarStr idv, col.2)
        | none => col)
    | none => col

/-- The per-column sanitization sweep of `GridBuilder.build`
(`for i, col in enumerate(self.col_meta)` — `i = 0` is the index and is
skipped; column `i-1` of the frame is sanitized against the meta of the
`i`-th `col_meta` entry). -/
def sanitizeSweep (cols : List (List Char × List PCell))
    (metas : List ZDict) (i : Nat) : Except ZErr (List (List Char × List PCell)) :=
  match metas with
  | [] => .ok cols
  | m :: rest => do
    let cols' ←
      if i = 0 then pure cols
      else
        match cols.get? (i - 1) with
        | none => .error (.keyErr "column out of range")
        | some (name, cells) => do
          let cells' ← sanitizeSeries cells m
          pure (cols.set (i - 1) (name, cells'))
    sanitizeSweep cols' rest (i + 1)

/-- `GridBuilder.build`.
`idx = [x.val for x in self.cols.pop('ts')]` raises `KeyError` without a
`ts` column and — since the scalars of `dtypes.py` have a `value`
attribute but no `val` — `AttributeError` whenever the `ts` column holds
any cell at all; only a row-less grid gets past this line.  The
`pd.DataFrame` constructor requires every column to match the index in
length (external; modelled as a `ValueError` check). -/
def GridBuilder.build (gb : GridBuilder) : Except ZErr Grid := do
  let (tsCells, colsRest) ←
    match assocPop gb.cols "ts".toList with
    | some p => pure p
    | none => .error (.keyErr "ts")
  let idx : List (List Char) ←
    match tsCells with
    | [] => pure []
    | _ => .error (.attrErr "object has no attribute val")
  if colsRest.all fun kv => kv.2.length = idx.length then do
    let cols0 := colsRest.map fun kv =>
      (kv.1, kv.2.map fun c =>
        match c with
        | none => PCell.missing
        | some v => PCell.obj v)
    let cols1 := renameCols cols0 gb.colMeta
    let cols2 ← sanitizeSweep cols1 (gb.colMeta.map Prod.snd) 0
    .ok ⟨gb.version, gb.gridMeta, gb.colMeta, ⟨"ts".toList, idx, cols2⟩⟩
  else .error (.valueErr "All arrays must be of the same length")

/-- `ZincParser._parse_grid._check_version`. -/
def checkVersion (s : List Char) : Except ZErr Nat :=
  if s = "3.0".toList then .ok 3
  else if s = "2.0".toList then .ok 2
  else .error (.parseErr "Unsupported Zinc version")

/-- The `ver` header of `ZincParser._parse_grid` (lines 97–103): the `ver`
identifier, a colon, the version string, checked by `_check_version`. -/
def parseVerHeader (st : PState) : Except ZErr (Nat × PState) := do
  let t ← curTok st
  if t.ttype = .id ∧ t.val = "ver".toList then do
    let st ← pconsume st
    let st ← consumeI st tCOLON
    let (s, st) ← consumeStr st
    let v ← checkVersion s
    .ok (v, st)
  else .error (.parseErr "Expecting grid ver identifier")

/-- The column-definition loop of `ZincParser._parse_grid` (lines
116–125): `while cur.ttype is ID`, a tag name, an optional meta dict,
`add_col`, break unless a comma follows. -/
def parseColSpecs (fuel : Nat) (gb : GridBuilder) (numCols : Nat)
    (st : PState) : Except ZErr (GridBuilder × Nat × PState) :=
  match fuel with
  | 0 => .error .fuelOut
  | fuel + 1 => do
    let t ← curTok st
    if t.ttype = .id then do
      let (colname, st) ← consumeTagName st
      let t2 ← curTok st
      let (colMeta, st) ←
        if t2.ttype = .id then parseDict fuel st
        else pure (([] : ZDict), st)
      let gb := gb.addCol colname colMeta
      if st.cur ≠ some tCOMMA then .ok (gb, numCols + 1, st)
      else do
        let st ← consumeI st tCOMMA
        parseColSpecs fuel gb (numCols + 1) st
    else .ok (gb, numCols, st)

/-- The cell loop of one row of `ZincParser._parse_grid` (lines 137–143):
`for i in range(num_cols)` — an empty slot (comma, newline or end of
input) binds the Python `None`, otherwise a value is parsed; all but the
last slot must be followed by a comma. -/
def parseRowCells (fuel : Nat) (n : Nat) (st : PState) :
    Except ZErr (List Cell × PState) :=
  match n with
  | 0 => .ok ([], st)
  | n + 1 => do
    let (c, st) ←
      if st.cur = some tCOMMA ∨ st.cur = some tNEWLINE ∨ st.cur = some tEOF then
        pure ((none : Cell), st)
      else do
        let (v, st) ← parseVal fuel st
        pure (some v, st)
    match n with
    | 0 => .ok ([c], st)
    | m + 1 => do
      let st ← consumeI st tCOMMA
      let (cs, st) ← parseRowCells fuel (m + 1) st
      .ok (c :: cs, st)

/-- The row loop of `ZincParser._parse_grid` (lines 131–148): rows until a
newline or end of input; each row's cells go to `add_row`; after a row,
end of input stops, otherwise a newline is required. -/
def parseRows (fuel : Nat) (numCols : Nat) (gb : GridBuilder) (st : PState) :
    Except ZErr (GridBuilder × PState) :=
  match fuel with
  | 0 => .error .fuelOut
  | fuel + 1 =>
    if st.cur = some tNEWLINE ∨ st.cur = some tEOF then .ok (gb, st)
    else do
      let (cells, st) ← parseRowCells fuel numCols st
      let gb := gb.addRow cells
      if st.cur = some tEOF then .ok (gb, st)
      else do
        let st ← consumeI st tNEWLINE
        parseRows fuel numCols gb st

/-- `ZincParser._parse_grid`. -/
def parseGrid (fuel : Nat) (st : PState) : Except ZErr (Grid × PState) := do
  let (ver, st) ← parseVerHeader st
  let gb := GridBuilder.mk ver none [] []
  let t ← curTok st
  let (gb, st) ←
    if t.ttype = .id then do
      let (gridMeta, st) ← parseDict fuel st
      if dictHas gridMeta "err".toList then
        .error (.errorGrid "Error grid received")
      else pure (gb.addMeta gridMeta, st)
    else pure (gb, st)
  let st ← consumeI st tNEWLINE
  let (gb, numCols, st) ← parseColSpecs fuel gb 0 st
  if numCols = 0 then .error (.parseErr "No columns defined")
  else do
    let st ← consumeI st tNEWLINE
    let (gb, st) ← parseRows fuel numCols gb st
    let st ← if st.cur = some tNEWLINE then consumeI st tNEWLINE else pure st
    let g ← gb.build
    .ok (g, st)

/-- The fuel supplied to the embedded unbounded loops: ample for any
terminating run over the given input. -/
def fuelFor (l : List Char) : Nat := 4 * l.length + 64

/-- `ZincParser.parse` reached through `zinc_parser.parse(s)`:
build the parser (two initial consumes), parse the grid, and require the
cursor to rest on `EOF`. -/
def parseTop (l : List Char) : Except ZErr Grid := do
  let st ← mkPState l
  let (g, st) ← parseGrid (fuelFor l) st
  let _ ← verifyEq st tEOF
  .ok g

/-- Validity of a Grid value, from the data-model invariants of the spec
(§3): supported version; a leading `ts` column; unique, lowercase-led,
id-shaped column names; id-shaped grid-info tag names without the fatal
`err` (an `err` grid is a server error, not data) and without `ver` (which
is consumed into `version`, not stored); a rectangular data frame aligned
with the declared columns. -/
def validGrid (g : Grid) : Bool :=
  (g.version = 2 || g.version = 3) &&
  (match g.gridInfo with
    | none => false
    | some d =>
      d.all fun kv =>
        kv.1 ≠ [] && (kv.1.head?.elim false isIdStart) &&
        kv.1.all isIdPart && kv.1 ≠ "err".toList && kv.1 ≠ "ver".toList) &&
  (match g.columnInfo with
    | [] => false
    | c0 :: _ => c0.1 = "ts".toList) &&
  (g.columnInfo.map Prod.fst).Nodup &&
  g.columnInfo.all (fun kv =>
    kv.1 ≠ [] && (kv.1.head?.elim false isIdStart) && kv.1.all isIdPart) &&
  g.data.indexName = "ts".toList &&
  g.data.cols.map Prod.fst = (g.columnInfo.map Prod.fst).tail &&
  g.data.cols.all fun kv => kv.2.length = g.data.index.length

/-- `version`/`grid_info`/`column_info`/row-cell agreement between grids —
the `≅` of spec §8 property 1 (cells here compare structurally; missing
numeric cells are the one `missing` value on both sides). -/
def gridEquiv (a b : Grid) : Prop :=
  a.version = b.version ∧ a.gridInfo = b.gridInfo ∧
  a.columnInfo = b.columnInfo ∧ a.data = b.data

/-- Round trip of spec §8 property 1 at a grid: emission succeeds and
re-parsing returns an equivalent grid. -/
def roundTrips (g : Grid) : Prop :=
  ∃ s, toZincE g = .ok s ∧ ∃ g', parseTop s = .ok g' ∧ gridEquiv g' g

/-- A valid single-row grid whose one data cell is the string `occupied`
(a `Str`-kind column, as in the repository's own `full_grid` test data):
emission renders the string bare, so the emitted text does not re-parse. -/
def gStrCell : Grid :=
  ⟨3, some [("dis".toList, .str "x".toList)],
   [("ts".toList, [("tz".toList, .str "Los_Angeles".toList)]),
    ("v0".toList, [("kind".toList, .str "Str".toList)])],
   ⟨"ts".toList, ["2020-01-01T00:00:00".toList],
    [("v0".toList, [.obj (.str "occupied".toList)])]⟩⟩

/-- A valid row-less grid family over the supported versions: a string tag
and a marker tag in the grid info, a `ts` column and one `Number`-kind
column with no rows. -/
def gRowless (v : Nat) : Grid :=
  ⟨v, some [("dis".toList, .str "a".toList), ("hisEnd".toList, .marker)],
   [("ts".toList, []), ("v0".toList, [("kind".toList, .str "Number".toList)])],
   ⟨"ts".toList, [], [("v0".toList, [])]⟩⟩

/-- Convenience: the parser's value rule applied at the head of a token
stream (a parser initialized on the text, then `_parse_val`). -/
def parseValAt (l : List Char) : Except ZErr (Scalar × PState) := do
  let st ← mkPState l
  parseVal (fuelFor l) st

/-- The scalar result of `parseValAt`. -/
def parseValResAt (l : List Char) : Except ZErr Scalar :=
  (parseValAt l).map Prod.fst

/-- `dtypes.NEG_INF` as written in the source (`Number(float("inf"))`,
dtypes.py line 118 — the sign is absent). -/
def dtypesNEG_INF : Scalar := .number .inf none

theorem stripQuotes_cons (d : List Char) : stripQuotes ('"' :: d) = stripQuotes d := by
  simp [stripQuotes, List.dropWhile_cons]

theorem stripQuotes_concat (d : List Char) :
    stripQuotes (d ++ ['"']) = stripQuotes d := by
  unfold stripQuotes
  rw [List.dropWhile_append]
  split
  · rename_i hempty
    rw [List.isEmpty_iff] at hempty
    rw [hempty]
    simp [List.dropWhile]
  · simp [List.reverse_append, List.dropWhile_cons]

/-- C10: `Ref.__init__` leaves `display_name` as `None` for a `None` or
empty display argument; otherwise it strips all leading and trailing
double quotes (so quotes belonging to the content are lost too, as the
two `stripQuotes` equations state), and `Ref.__str__` re-quotes the
display name after `@uid`. -/
theorem claim10_ref_display (u d : List Char) (hd : d ≠ []) :
    mkRef u none = .ref u none ∧
    mkRef u (some []) = .ref u none ∧
    mkRef u (some d) = .ref u (some (stripQuotes d)) ∧
    stripQuotes ('"' :: d) = stripQuotes d ∧
    stripQuotes (d ++ ['"']) = stripQuotes d ∧
    refStr u none = '@' :: u ∧
    refStr u (some (stripQuotes d)) =
      '@' :: u ++ ' ' :: '"' :: stripQuotes d ++ ['"'] := by
  refine ⟨rfl, rfl, ?_, stripQuotes_cons d, stripQuotes_concat d,
    by simp [refStr], by simp [refStr]⟩
  simp [mkRef, refDisplay, hd]

theorem claim10_ref_display_witness :
    mkRef "x".toList (some "\"Building One\"".toList) =
      .ref "x".toList (some "Building One".toList) := by
  have h := (claim10_ref_display "x".toList "\"Building One\"".toList
    (by decide)).2.2.1
  rw [h]
  rfl

theorem strAux_escape {rest s2 r2 : List Char} (fuel : Nat) (acc : List Char)
    (hp : pyEscape ('\\' :: rest) = .ok (s2, r2)) :
    tokenizeStrAux (fuel + 1) acc ('\\' :: rest) =
      tokenizeStrAux fuel (acc ++ s2) r2 := by
  rw [tokenizeStrAux]
  have h1 : (('\\' : Char) = '"') = False := by simp
  have h2 : (('\\' : Char) = '\\') = True := by simp
  simp only [h1, h2, if_true, if_false, hp]

theorem strAux_escape_err {rest : List Char} {e : TokErr} (fuel : Nat)
    (acc : List Char) (hp : pyEscape ('\\' :: rest) = .error e) :
    tokenizeStrAux (fuel + 1) acc ('\\' :: rest) = .error e := by
  rw [tokenizeStrAux]
  have h1 : (('\\' : Char) = '"') = False := by simp
  have h2 : (('\\' : Char) = '\\') = True := by simp
  simp only [h1, h2, if_true, if_false, hp]

/-- C6 (confirmed): in the scan of any string literal, a pass-through
escape (`\b \f \n \r \t \" \$ \' `` \` `` `\\`) is kept verbatim as its
two-character backslash sequence in the token content; `\uXXXX` is decoded
to the single character `chr` of its hex value; any other backslash escape
raises a scan error. -/
theorem claim6_string_escapes :
    (∀ c fuel acc rest, passThroughEscape c = true →
      pyEscape ('\\' :: c :: rest) = .ok (['\\', c], rest) ∧
      tokenizeStrAux (fuel + 1) acc ('\\' :: c :: rest) =
        tokenizeStrAux fuel (acc ++ ['\\', c]) rest) ∧
    (∀ h1 h2 h3 h4 fuel acc rest a b d e,
      hexDigit h1 = some a → hexDigit h2 = some b →
      hexDigit h3 = some d → hexDigit h4 = some e →
      pyEscape ('\\' :: 'u' :: h1 :: h2 :: h3 :: h4 :: rest) =
        .ok ([Char.ofNat (((a * 16 + b) * 16 + d) * 16 + e)], rest) ∧
      tokenizeStrAux (fuel + 1) acc ('\\' :: 'u' :: h1 :: h2 :: h3 :: h4 :: rest) =
        tokenizeStrAux fuel
          (acc ++ [Char.ofNat (((a * 16 + b) * 16 + d) * 16 + e)]) rest) ∧
    (∀ c fuel rest, passThroughEscape c = false → c ≠ 'u' →
      pyEscape ('\\' :: c :: rest) =
        .error (.scanErr "Invalid escape sequence") ∧
      tokenizeStrAux (fuel + 1) [] ('\\' :: c :: rest) =
        .error (.scanErr "Invalid escape sequence")) := by
  refine ⟨?_, ?_, ?_⟩
  · intro c fuel acc rest hv
    have hp : pyEscape ('\\' :: c :: rest) = .ok (['\\', c], rest) := by
      simp [pyEscape, consumeExpect, bind, Except.bind, hv]
    exact ⟨hp, strAux_escape fuel acc hp⟩
  · intro h1 h2 h3 h4 fuel acc rest a b d e hx1 hx2 hx3 hx4
    have hnp : passThroughEscape 'u' = false := by decide
    have hp : pyEscape ('\\' :: 'u' :: h1 :: h2 :: h3 :: h4 :: rest) =
        .ok ([Char.ofNat (((a * 16 + b) * 16 + d) * 16 + e)], rest) := by
      simp [pyEscape, consumeExpect, bind, Except.bind, hnp, hx1, hx2, hx3, hx4]
    exact ⟨hp, strAux_escape fuel acc hp⟩
  · intro c fuel rest hv hu
    have hp : pyEscape ('\\' :: c :: rest) =
        .error (.scanErr "Invalid escape sequence") := by
      simp [pyEscape, consumeExpect, bind, Except.bind, hv, hu]
    exact ⟨hp, strAux_escape_err fuel [] hp⟩

theorem claim6_string_escapes_witness :
    (pyEscape ('\\' :: 'n' :: "x\"".toList) = .ok (['\\', 'n'], "x\"".toList) ∧
      tokenizeStrAux 9 [] ('\\' :: 'n' :: "x\"".toList) =
        tokenizeStrAux 8 ([] ++ ['\\', 'n']) "x\"".toList) ∧
    (pyEscape "\\u0041\"".toList = .ok (['A'], ['"'])) ∧
    (pyEscape ('\\' :: 'x' :: []) =
      .error (.scanErr "Invalid escape sequence")) := by
  refine ⟨claim6_string_escapes.1 'n' 8 [] "x\"".toList (by decide), ?_, ?_⟩
  · exact (claim6_string_escapes.2.1 '0' '0' '4' '1' 8 [] ['"']
      0 0 4 1 rfl rfl rfl rfl).1
  · exact (claim6_string_escapes.2.2 'x' 8 [] (by decide) (by decide)).1

/-- C5 (code bug): the claim says a `Time` token is always returned for a
`dashes == 0, colons ≥ 1` scan.  When the scan is followed by a space and
an uppercase letter, the timezone suffix is indeed appended (`23:47 LA`);
but otherwise `_tokenize_time` falls off its end and the tokenizer yields
Python `None` (the `none` token below) instead of a `Time` token — its own
annotation promises `-> Token`. -/
theorem claim5_time_token_eval :
    nextToken "23:47 LA,".toList =
      .ok (some ⟨.time, "23:47 LA".toList, 0⟩, ",".toList) ∧
    nextToken "23:47,".toList = .ok (none, ",".toList) ∧
    nextToken "23:47".toList = .ok (none, []) ∧
    nextToken "23:47 x".toList = .ok (none, " x".toList) := by
  exact ⟨by rfl, by rfl, by rfl, by rfl⟩

/-- C7 (code bug): a URI escape of a reserved character (`:/?#[]@\&=;`)
should be retained verbatim, but the source calls `s._consume()` on the
content list and raises `AttributeError` instead.  Other escapes go
through the general escape decoder (`` `a\nb` `` keeps the two-character
sequence), and an unescaped newline or end of input before the closing
backquote is a scan error, as the claim says. -/
theorem claim7_uri_escape_eval :
    nextToken "`a\\:b`".toList =
      .error (.attrErr "list object has no attribute _consume") ∧
    nextToken "`a\\nb`".toList =
      .ok (some ⟨.uri, "a\\nb".toList, 0⟩, []) ∧
    nextToken "`a\\u0041b`".toList =
      .ok (some ⟨.uri, "aAb".toList, 0⟩, []) ∧
    nextToken "`ab".toList = .error (.scanErr "Unexpected end of URI") ∧
    nextToken "`a\nb`".toList = .error (.scanErr "Unexpected end of URI") := by
  exact ⟨by rfl, by rfl, by rfl, by rfl, by rfl⟩

/-- C3 (code bug): on a `Minus` token whose successor carries the lexeme
`INF`, the claim (and the spec) require the `Number` value `-Inf`.  The
source instead consumes the minus and then evaluates `tokens.ID`, which
does not exist — an `AttributeError` (even the `NotImplementedError` it
intends is unreachable); and the `dtypes.NEG_INF` constant it would need
is itself defined as `Number(float("inf"))`, positive infinity. -/
theorem claim3_neg_inf_eval :
    parseValAt "-INF".toList =
      .error (.attrErr "module tokens has no attribute ID") ∧
    parseValResAt "-INF,".toList =
      .error (.attrErr "module tokens has no attribute ID") ∧
    dtypesNEG_INF = .number .inf none ∧
    nextToken "-INF".toList = .ok (some tMINUS, "INF".toList) := by
  exact ⟨by rfl, by rfl, by rfl, by rfl⟩

/-- C2 (code bug): `T F N M NA R` translate to their sentinel scalars, and
any reserved token other than those six makes the value rule raise a
`ZincParseException` — including `NaN` and `INF`, for which the claim
(with spec §8 S4 and the unused `dtypes.NAN`/`dtypes.POS_INF` constants)
requires the NaN and `+Inf` `Number` scalars instead; the tokenizer
really does hand the parser those two reserved tokens. -/
theorem claim2_reserved_tokens :
    parseValResAt "T ".toList = .ok (.bool true) ∧
    parseValResAt "F ".toList = .ok (.bool false) ∧
    parseValResAt "N ".toList = .ok .null ∧
    parseValResAt "M ".toList = .ok .marker ∧
    parseValResAt "NA ".toList = .ok .na ∧
    parseValResAt "R ".toList = .ok .remove ∧
    nextToken "NaN ".toList = .ok (some tNAN, " ".toList) ∧
    nextToken "INF ".toList = .ok (some tPOS_INF, " ".toList) ∧
    parseValResAt "NaN ".toList =
      .error (.parseErr "Unrecognized reserved token") ∧
    parseValResAt "INF ".toList =
      .error (.parseErr "Unrecognized reserved token") ∧
    (∀ v fuel, v ∉ ["T".toList, "F".toList, "N".toList, "M".toList,
        "NA".toList, "R".toList] →
      parseVal (fuel + 1) ⟨some ⟨.reserved, v, 0⟩, some tEOF, []⟩ =
        .error (.parseErr "Unrecognized reserved token")) := by
  refine ⟨by rfl, by rfl, by rfl, by rfl, by rfl, by rfl, by rfl, by rfl,
    by rfl, by rfl, ?_⟩
  intro v fuel hv
  simp only [List.mem_cons, List.not_mem_nil, or_false, not_or] at hv
  obtain ⟨h1, h2, h3, h4, h5, h6⟩ := hv
  rw [show "T".toList = ['T'] from rfl] at h1
  rw [show "F".toList = ['F'] from rfl] at h2
  rw [show "N".toList = ['N'] from rfl] at h3
  rw [show "M".toList = ['M'] from rfl] at h4
  rw [show "NA".toList = ['N', 'A'] from rfl] at h5
  rw [show "R".toList = ['R'] from rfl] at h6
  rw [parseVal]
  simp [curTok, bind, Except.bind, consumeT, verifyType, pconsume, nextToken,
    pure, Except.pure, h1, h2, h3, h4, h5, h6]

theorem claim2_reserved_tokens_witness :
    parseVal 9 ⟨some ⟨.reserved, "Q".toList, 0⟩, some tEOF, []⟩ =
      .error (.parseErr "Unrecognized reserved token") := by
  exact claim2_reserved_tokens.2.2.2.2.2.2.2.2.2.2 "Q".toList 8 (by decide)

/-- The Zinc text `to_zinc` emits for `gStrCell`. -/
def gStrCellZinc : List Char :=
  ("ver:\"3.0\" dis:\"x\"\nts tz:\"Los_Angeles\",v0 kind:\"Str\"\n" ++
   "2020-01-01T00:00:00 Los_Angeles,occupied\n").toList

theorem gStrCell_emits : toZincE gStrCell = .ok gStrCellZinc := by rfl

theorem gStrCell_reparse :
    parseTop gStrCellZinc = .error (.parseErr "Unexpected identifier") := by
  rfl

/-- C1 counterexample: `gStrCell` is a valid grid (a `ts` column with a
timezone and one `Str`-kind column holding the string `occupied`), yet
`parse(g.to_zinc())` is not a grid equivalent to `g` — the emitter renders
the string cell bare, the re-parse hits it as an identifier and raises
`ZincParseException`, so no grid at all is returned. -/
theorem claim1_roundtrip_counterexample :
    validGrid gStrCell = true ∧ ¬ roundTrips gStrCell := by
  refine ⟨by rfl, ?_⟩
  rintro ⟨s, hs, g', hp, -⟩
  rw [gStrCell_emits] at hs
  injection hs with hs'
  rw [← hs'] at hp
  rw [gStrCell_reparse] at hp
  cases hp

/-- C1 amended: the round trip `parse(g.to_zinc()) ≅ g` does not hold for
all valid grids; it does hold on the row-less family `gRowless` for both
supported versions (string, marker and `kind` tags and the column layout
all survive the trip), while grids with bare string cells fail to re-parse
(see the counterexample). -/
theorem claim1_roundtrip_amended (v : Nat) (hv : v = 2 ∨ v = 3) :
    validGrid (gRowless v) = true ∧ roundTrips (gRowless v) := by
  rcases hv with rfl | rfl
  · exact ⟨by rfl, ⟨_, by rfl, gRowless 2, by rfl, by rfl, by rfl, by rfl, by rfl⟩⟩
  · exact ⟨by rfl, ⟨_, by rfl, gRowless 3, by rfl, by rfl, by rfl, by rfl, by rfl⟩⟩

theorem claim1_roundtrip_amended_witness :
    validGrid (gRowless 3) = true ∧ roundTrips (gRowless 3) :=
  claim1_roundtrip_amended 3 (Or.inr rfl)

/-- A two-column builder (`ts`, `v0`) as the parser would create it. -/
def gb2 : GridBuilder :=
  ((GridBuilder.mk 3 none [] []).addCol "ts".toList []).addCol "v0".toList []

/-- C9 counterexample: `add_row` on the two-column builder with a
three-cell row raises nothing and silently accepts the row — the first
two cells are appended and the third vanishes (`zip` truncation) — where
the claim requires the builder to reject a row whose cell count differs
from the column count. -/
theorem claim9_builder_counterexample :
    (gb2.addRow [some .marker, some .null, some .remove]).cols =
      [("ts".toList, [some .marker]), ("v0".toList, [some .null])] ∧
    (gb2.addRow [some .marker]).cols =
      [("ts".toList, [some .marker]), ("v0".toList, [])] := by
  exact ⟨by rfl, by rfl⟩

theorem exceptMapM_length {α β : Type} {f : α → Except ZErr β} :
    ∀ {l : List α} {l' : List β}, l.mapM f = .ok l' → l'.length = l.length := by
  intro l
  induction l with
  | nil => intro l' h; cases h; rfl
  | cons a rest ih =>
    intro l' h
    rw [List.mapM_cons] at h
    cases hf : f a with
    | error e => rw [hf] at h; cases h
    | ok b =>
      rw [hf] at h
      cases hr : rest.mapM f with
      | error e =>
        rw [hr] at h
        cases h
      | ok bs =>
        rw [hr] at h
        cases h
        simp [ih hr]

theorem sanitizeSeries_length {cells cells' : List PCell} {m : ZDict}
    (h : sanitizeSeries cells m = .ok cells') :
    cells'.length = cells.length := by
  unfold sanitizeSeries at h
  split at h
  · split at h
    · simpa using exceptMapM_length h
    · split at h
      · split at h
        · cases h; simp
        · cases h; rfl
      · cases h; rfl
  · split at h
    · cases h; rfl
    · split at h
      · split at h
        · simpa using exceptMapM_length h
        · cases h; simp
      · cases h; rfl

theorem list_set_self {α : Type} (f : α → Nat) :
    ∀ (l : List α) (n : Nat) (a : α), l.get? n = some a →
    ∀ (b : α), f b = f a → (l.set n b).map f = l.map f := by
  intro l
  induction l with
  | nil => intro n a h; cases h
  | cons x rest ih =>
    intro n a h b hf
    cases n with
    | zero =>
      simp only [List.get?] at h
      injection h with h
      simp [List.set, hf, h]
    | succ m =>
      simp only [List.get?] at h
      simp [List.set, ih m a h b hf]

theorem sanitizeSweep_lengths :
    ∀ (metas : List ZDict) (cols cols' : List (List Char × List PCell))
      (i : Nat), sanitizeSweep cols metas i = .ok cols' →
      cols'.map (fun kv => kv.2.length) = cols.map (fun kv => kv.2.length) := by
  intro metas
  induction metas with
  | nil =>
    intro cols cols' i h
    cases h
    rfl
  | cons m rest ih =>
    intro cols cols' i h
    rw [sanitizeSweep] at h
    simp only [bind, Except.bind] at h
    split at h
    · exact ih cols cols' (i + 1) h
    · rename_i hi
      cases hg : cols.get? (i - 1) with
      | none => rw [hg] at h; cases h
      | some kv =>
        rw [hg] at h
        cases hs : sanitizeSeries kv.2 m with
        | error e => simp [hs, pure, Except.pure] at h
        | ok cells' =>
          simp only [hs, pure, Except.pure] at h
          have h2 := ih _ cols' (i + 1) h
          rw [h2]
          exact list_set_self _ cols (i - 1) kv hg (kv.1, cells')
            (sanitizeSeries_length hs)

/-- C9 amended: the builder performs no row-width validation.
`add_row` pairs cells with columns positionally (the `get?` equation):
surplus cells are dropped and surplus columns left untouched, never an
error.  What does hold is that any `Grid` that `build()` returns is
rectangular — every data column has exactly one cell per index entry
(the DataFrame constructor enforces equal lengths and sanitization
preserves them). -/
theorem claim9_builder_amended (cols : List (List Char × List Cell))
    (row : List Cell) (i : Nat) (gb : GridBuilder) (g : Grid)
    (hb : gb.build = .ok g) :
    (zipAppendCells cols row).get? i =
      (cols.get? i).map (fun kv =>
        match row.get? i with
        | some v => (kv.1, kv.2 ++ [v])
        | none => kv) ∧
    (∀ col ∈ g.data.cols, col.2.length = g.data.index.length) := by
  constructor
  · induction cols generalizing row i with
    | nil => simp [zipAppendCells]
    | cons kv rest ih =>
      cases row with
      | nil =>
        cases i <;> simp [zipAppendCells]
      | cons v vs =>
        cases i with
        | zero => simp [zipAppendCells]
        | succ j => simpa [zipAppendCells] using ih vs j
  · intro col hcol
    unfold GridBuilder.build at hb
    simp only [bind, Except.bind] at hb
    cases hpop : assocPop gb.cols "ts".toList with
    | none => rw [hpop] at hb; cases hb
    | some p =>
      rw [hpop] at hb
      simp only [pure, Except.pure] at hb
      cases hts : p.1 with
      | cons a rest => rw [hts] at hb; cases hb
      | nil =>
        rw [hts] at hb
        simp only at hb
        split at hb
        · rename_i hall
          cases hsw : sanitizeSweep (renameCols
              (p.2.map fun kv => (kv.1, kv.2.map fun c =>
                match c with
                | none => PCell.missing
                | some v => PCell.obj v)) gb.colMeta)
              (gb.colMeta.map Prod.snd) 0 with
          | error e => rw [hsw] at hb; cases hb
          | ok cols2 =>
            rw [hsw] at hb
            simp only [pure, Except.pure] at hb
            cases hb
            simp only
            have hlens := sanitizeSweep_lengths _ _ _ _ hsw
            have hmem : col.2.length ∈ cols2.map (fun kv => kv.2.length) :=
              List.mem_map.mpr ⟨col, hcol, rfl⟩
            rw [hlens] at hmem
            simp only [renameCols, List.map_map] at hmem
            rw [List.mem_map] at hmem
            obtain ⟨kv, hkv, he⟩ := hmem
            have hlen := (List.all_eq_true.mp hall) kv hkv
            simp only [decide_eq_true_eq] at hlen
            have : col.2.length = kv.2.length := by
              rw [← he]
              simp only [Function.comp]
              split
              · split <;> simp
              · simp
            omega
        · cases hb

theorem claim9_builder_amended_witness :
    (zipAppendCells [("a".toList, [])] [some .marker, some .null]).get? 0 =
      some ("a".toList, [some Scalar.marker]) ∧
    (∀ col ∈ (gRowless 3).data.cols,
      col.2.length = (gRowless 3).data.index.length) := by
  have hb : (GridBuilder.mk 3
      (some [("dis".toList, .str "a".toList), ("hisEnd".toList, .marker)])
      [("ts".toList, []), ("v0".toList, [("kind".toList, .str "Number".toList)])]
      [("ts".toList, []), ("v0".toList, [])]).build = .ok (gRowless 3) := by rfl
  have h := claim9_builder_amended [("a".toList, [])] [some .marker, some .null]
    0 _ _ hb
  exact h

theorem ntComma (l : List Char) : nextToken (',' :: l) = .ok (some tCOMMA, l) := by
  rfl

theorem pconsume_shift (a : Option ZToken) {xs r1 : List Char}
    {t1 : Option ZToken} (h : nextToken xs = .ok (t1, r1)) :
    pconsume ⟨a, t1, r1⟩ = mkPState xs := by
  unfold mkPState pconsume
  simp [h, bind, Except.bind]

theorem mkPState_comma_cur (xs : List Char) (st0 : PState)
    (h : mkPState (',' :: xs) = .ok st0) : st0.cur = some tCOMMA := by
  unfold mkPState at h
  simp only [bind, Except.bind, pconsume, ntComma] at h
  cases hnt : nextToken xs with
  | error e => rw [hnt] at h; cases h
  | ok p => rw [hnt] at h; cases h; rfl

/-- Cell loop over `n` empty comma-separated fields followed by any tail
whose first token is a comma, newline or end of input: every field binds
the Python `None`. -/
theorem rowCellsGen : ∀ (n fuel : Nat) (tail : List Char) (stF : PState),
    mkPState tail = .ok stF →
    (stF.cur = some tCOMMA ∨ stF.cur = some tNEWLINE ∨ stF.cur = some tEOF) →
    (do
      let st ← mkPState (List.replicate n ',' ++ tail)
      parseRowCells fuel (n + 1) st : Except ZErr (List Cell × PState)) =
    .ok (List.replicate (n + 1) (none : Cell), stF) := by
  intro n
  induction n with
  | zero =>
    intro fuel tail stF hmk hcur
    simp only [List.replicate, List.nil_append, bind, Except.bind, hmk]
    rw [parseRowCells]
    simp [hcur, bind, Except.bind, pure, Except.pure]
  | succ m ih =>
    intro fuel tail stF hmk hcur
    rw [List.replicate_succ, List.cons_append]
    set xs := List.replicate m ',' ++ tail with hxs
    cases hnt : nextToken xs with
    | error e =>
      exfalso
      have hbad : mkPState xs = .error (.scan e) := by
        simp [mkPState, pconsume, hnt, bind, Except.bind]
      have := ih fuel tail stF hmk hcur
      rw [hbad] at this
      simp [bind, Except.bind] at this
    | ok p =>
      obtain ⟨t1, r1⟩ := p
      have hmk1 : mkPState (',' :: xs) = .ok ⟨some tCOMMA, t1, r1⟩ := by
        simp [mkPState, pconsume, ntComma, hnt, bind, Except.bind]
      simp only [bind, Except.bind, hmk1]
      rw [parseRowCells]
      rw [if_pos (Or.inl rfl)]
      simp only [bind, Except.bind, pure, Except.pure]
      have hci : consumeI ⟨some tCOMMA, t1, r1⟩ tCOMMA = mkPState xs := by
        unfold consumeI verifyEq
        simp [bind, Except.bind, pure, Except.pure]
        exact pconsume_shift (some tCOMMA) hnt
      rw [hci]
      have hrec := ih fuel tail stF hmk hcur
      cases hmk2 : mkPState xs with
      | error e =>
        rw [hmk2] at hrec
        simp [bind, Except.bind] at hrec
      | ok st2 =>
        rw [hmk2] at hrec
        simp only [bind, Except.bind] at hrec
        simp [hrec, List.replicate_succ, pure, Except.pure]

/-- C4 counterexample: against three declared columns (`ts,a,b`), the row
`1,2` — two non-empty cells, fewer than the column count — is not
accepted with a trailing `Null`: the parse fails on the missing comma
(`_consume_i(tokens.COMMA)`).  And in a row that does carry all its
commas (`,,` against three columns), the empty cells are bound to the
Python `None`, not to the `Null` scalar of `dtypes`. -/
theorem claim4_row_cells_counterexample :
    parseTop "ver:\"3.0\"\nts,a,b\n1,2\n".toList =
      .error (.parseErr "Expected token") ∧
    (do
      let st ← mkPState ",,\n".toList
      let (cells, _) ← parseRowCells 50 3 st
      pure cells : Except ZErr (List Cell)) = .ok [none, none, none] := by
  exact ⟨by rfl, by rfl⟩

/-- C4 amended: a row must carry exactly `num_cols` comma-delimited
fields.  (1) A row of `n+1` empty fields against `n+1` columns is
accepted, every empty field bound to the Python `None` missing marker
(not the `Null` scalar).  (2) A row with fewer fields than columns — here
one field against `n+2` columns — raises `ZincParseException` at the
missing comma.  (3) A row with more fields than columns — `n+2` fields
against `n+1` columns — raises `ZincParseException` where the row loop
expects the newline. -/
theorem claim4_row_cells_amended (n fuel : Nat) (gb : GridBuilder) :
    (do
      let st ← mkPState (List.replicate n ',' ++ ['\n'])
      parseRowCells fuel (n + 1) st : Except ZErr (List Cell × PState)) =
      .ok (List.replicate (n + 1) (none : Cell),
        ⟨some tNEWLINE, some tEOF, []⟩) ∧
    (do
      let st ← mkPState "1\n".toList
      parseRowCells (fuel + 1) (n + 2) st : Except ZErr (List Cell × PState)) =
      .error (.parseErr "Expected token") ∧
    (do
      let st ← mkPState (List.replicate (n + 1) ',' ++ ['\n'])
      parseRows (fuel + 1) (n + 1) gb st :
        Except ZErr (GridBuilder × PState)) =
      .error (.parseErr "Expected token") := by
  refine ⟨?_, ?_, ?_⟩
  · exact rowCellsGen n fuel ['\n'] ⟨some tNEWLINE, some tEOF, []⟩ (by rfl)
      (Or.inr (Or.inl rfl))
  · rfl
  · rw [show List.replicate (n + 1) ',' ++ ['\n'] =
      ',' :: (List.replicate n ',' ++ ['\n']) from by
        rw [List.replicate_succ, List.cons_append]]
    have hform : (',' :: (List.replicate n ',' ++ ['\n'])) =
        List.replicate n ',' ++ [',', '\n'] := by
      rw [← List.cons_append, ← List.replicate_succ, List.replicate_succ']
      simp
    have hcells := rowCellsGen n fuel [',', '\n']
      ⟨some tCOMMA, some tNEWLINE, []⟩ (by rfl) (Or.inl rfl)
    rw [← hform] at hcells
    cases hmk : mkPState (',' :: (List.replicate n ',' ++ ['\n'])) with
    | error e =>
      rw [hmk] at hcells
      simp [bind, Except.bind] at hcells
    | ok st0 =>
      have hcur := mkPState_comma_cur _ _ hmk
      rw [hmk] at hcells
      simp only [bind, Except.bind] at hcells ⊢
      rw [parseRows]
      rw [if_neg (by rw [hcur]; decide)]
      simp only [bind, Except.bind, hcells]
      rw [if_neg (by decide)]
      rfl

/-- Whether a parse outcome is the distinct `ZincErrorGridException`. -/
def isErrGridRes {α : Type} (r : Except ZErr α) : Bool :=
  match r with
  | .error (.errorGrid _) => true
  | _ => false

/-- The grid-info condition of the claim, at parser-state level, read off
the same embedded functions the parser runs: the `ver` header parses, the
token after it is an identifier, the meta dict parses, and it contains
the key `err`. -/
def metaHasErrSt (fuel : Nat) (st : PState) : Bool :=
  match parseVerHeader st with
  | .error _ => false
  | .ok (_, st1) =>
    match curTok st1 with
    | .error _ => false
    | .ok t =>
      if t.ttype = .id then
        match parseDict fuel st1 with
        | .error _ => false
        | .ok (d, _) => dictHas d "err".toList
      else false

/-- The grid-info condition of the claim for a whole input text. -/
def metaHasErr (l : List Char) : Bool :=
  match mkPState l with
  | .error _ => false
  | .ok st => metaHasErrSt (fuelFor l) st

theorem isEG_bind {α β : Type} {x : Except ZErr α} {f : α → Except ZErr β}
    (hx : isErrGridRes x = false) (hf : ∀ a, isErrGridRes (f a) = false) :
    isErrGridRes (x >>= f) = false := by
  cases x with
  | error e => cases e <;> first | rfl | exact hx
  | ok a => simpa [bind, Except.bind] using hf a

theorem isEG_pure {α : Type} (a : α) :
    isErrGridRes (pure a : Except ZErr α) = false := rfl

theorem isEG_ok {α : Type} (a : α) :
    isErrGridRes (Except.ok a : Except ZErr α) = false := rfl

theorem pconsume_noEG (st : PState) : isErrGridRes (pconsume st) = false := by
  unfold pconsume
  cases nextToken st.rest <;> rfl

theorem mkPState_noEG (l : List Char) : isErrGridRes (mkPState l) = false := by
  unfold mkPState
  exact isEG_bind (pconsume_noEG _) fun st => pconsume_noEG st

theorem curTok_noEG (st : PState) : isErrGridRes (curTok st) = false := by
  unfold curTok
  cases st.cur <;> rfl

theorem peekTok_noEG (st : PState) : isErrGridRes (peekTok st) = false := by
  unfold peekTok
  cases st.peek <;> rfl

theorem verifyType_noEG (st : PState) (e : TType) :
    isErrGridRes (verifyType st e) = false := by
  unfold verifyType
  refine isEG_bind (curTok_noEG st) fun t => ?_
  split <;> rfl

theorem verifyEq_noEG (st : PState) (e : ZToken) :
    isErrGridRes (verifyEq st e) = false := by
  unfold verifyEq
  split <;> rfl

theorem consumeT_noEG (st : PState) (e : TType) :
    isErrGridRes (consumeT st e) = false := by
  unfold consumeT
  exact isEG_bind (verifyType_noEG st e) fun _ => pconsume_noEG st

theorem consumeI_noEG (st : PState) (e : ZToken) :
    isErrGridRes (consumeI st e) = false := by
  unfold consumeI
  exact isEG_bind (verifyEq_noEG st e) fun _ => pconsume_noEG st

theorem consumeStr_noEG (st : PState) : isErrGridRes (consumeStr st) = false := by
  unfold consumeStr
  refine isEG_bind (verifyType_noEG st .string) fun _ => ?_
  refine isEG_bind (curTok_noEG st) fun t => ?_
  exact isEG_bind (consumeT_noEG st .string) fun st' => isEG_ok _

theorem consumeNum_noEG (st : PState) : isErrGridRes (consumeNum st) = false := by
  unfold consumeNum
  refine isEG_bind (verifyType_noEG st .number) fun _ => ?_
  refine isEG_bind (curTok_noEG st) fun t => ?_
  exact isEG_bind (consumeT_noEG st .number) fun st' => isEG_ok _

theorem consumeTagName_noEG (st : PState) :
    isErrGridRes (consumeTagName st) = false := by
  unfold consumeTagName
  refine isEG_bind (verifyType_noEG st .id) fun _ => ?_
  refine isEG_bind (curTok_noEG st) fun t => ?_
  split
  · exact isEG_bind (consumeT_noEG st .id) fun st' => isEG_ok _
  · rfl

theorem checkVersion_noEG (s : List Char) :
    isErrGridRes (checkVersion s) = false := by
  unfold checkVersion
  split
  · rfl
  · split <;> rfl

theorem parseVerHeader_noEG (st : PState) :
    isErrGridRes (parseVerHeader st) = false := by
  unfold parseVerHeader
  refine isEG_bind (curTok_noEG st) fun t => ?_
  split
  · refine isEG_bind (pconsume_noEG st) fun st1 => ?_
    refine isEG_bind (consumeI_noEG st1 tCOLON) fun st2 => ?_
    refine isEG_bind (consumeStr_noEG st2) fun p => ?_
    exact isEG_bind (checkVersion_noEG p.1) fun v => isEG_ok _
  · rfl

theorem parseCoord_noEG (idStr : List Char) (st : PState) :
    isErrGridRes (parseCoord idStr st) = false := by
  unfold parseCoord
  split
  · refine isEG_bind (consumeI_noEG st tLPAREN) fun s1 => ?_
    refine isEG_bind (consumeNum_noEG s1) fun p1 => ?_
    refine isEG_bind (consumeI_noEG p1.2 tCOMMA) fun s2 => ?_
    refine isEG_bind (consumeNum_noEG s2) fun p2 => ?_
    exact isEG_bind (consumeI_noEG p2.2 tRPAREN) fun _ => rfl
  · rfl

theorem parseXstr_noEG (st : PState) : isErrGridRes (parseXstr st) = false := rfl

theorem parseRef_noEG (st : PState) : isErrGridRes (parseRef st) = false := by
  unfold parseRef
  refine isEG_bind (curTok_noEG st) fun t => ?_
  exact isEG_bind (consumeT_noEG st .ref) fun st' => isEG_ok _

theorem parseString_noEG (st : PState) :
    isErrGridRes (parseString st) = false := by
  unfold parseString
  refine isEG_bind (curTok_noEG st) fun t => ?_
  exact isEG_bind (pconsume_noEG st) fun st' => isEG_ok _

theorem parseDatetime_noEG (st : PState) :
    isErrGridRes (parseDatetime st) = false := by
  unfold parseDatetime
  refine isEG_bind (curTok_noEG st) fun t => ?_
  refine isEG_bind (pconsume_noEG st) fun st' => ?_
  split <;> rfl

theorem parseListV_noEG (st : PState) :
    isErrGridRes (parseListV st) = false := rfl

theorem valDictLoop_noEG : ∀ fuel : Nat,
    (∀ st, isErrGridRes (parseVal fuel st) = false) ∧
    (∀ st, isErrGridRes (parseDict fuel st) = false) ∧
    (∀ db st, isErrGridRes (parseDictLoop fuel db st) = false) := by
  intro fuel
  induction fuel with
  | zero => exact ⟨fun st => rfl, fun st => rfl, fun db st => rfl⟩
  | succ n ih =>
    obtain ⟨ihv, ihd, ihl⟩ := ih
    refine ⟨fun st => ?_, fun st => ?_, fun db st => ?_⟩
    · rw [parseVal]
      refine isEG_bind (curTok_noEG st) fun t => ?_
      split
      · refine isEG_bind (consumeT_noEG st .id) fun st' => ?_
        split
        · refine isEG_bind (peekTok_noEG st') fun p => ?_
          split
          · exact parseCoord_noEG t.val st'
          · exact parseXstr_noEG st'
        · rfl
      · split
        · refine isEG_bind (consumeT_noEG st .reserved) fun st' => ?_
          split
          · rfl
          · split
            · rfl
            · split
              · rfl
              · split
                · rfl
                · split
                  · rfl
                  · split <;> rfl
        · split
          · dsimp only
            repeat' split
            all_goals
              first
                | rfl
                | exact isEG_bind (consumeT_noEG st .number) fun st' => isEG_ok _
          · split
            · exact parseRef_noEG st
            · split
              · exact parseString_noEG st
              · split
                · split
                  · rfl
                  · split
                    · refine isEG_bind (consumeI_noEG st tMINUS) fun _ => rfl
                    · rfl
                · split
                  · exact parseListV_noEG st
                  · split
                    · refine isEG_bind (ihd st) fun p => isEG_ok _
                    · split
                      · rfl
                      · split
                        · exact parseDatetime_noEG st
                        · rfl
    · rw [parseDict]
      split
      · rename_i hbr
        refine isEG_bind (consumeI_noEG st tLBRACE) fun st1 => ?_
        refine isEG_bind (ihl [] st1) fun p => ?_
        obtain ⟨db, st2⟩ := p
        exact isEG_bind (consumeI_noEG st2 tRBRACE) fun st3 => rfl
      · rename_i hbr
        refine isEG_bind (isEG_pure _) fun st1 => ?_
        refine isEG_bind (ihl [] st1) fun p => ?_
        obtain ⟨db, st2⟩ := p
        rfl
    · rw [parseDictLoop]
      refine isEG_bind (curTok_noEG st) fun t => ?_
      split
      · refine isEG_bind (consumeTagName_noEG st) fun p => ?_
        obtain ⟨idstr, st1⟩ := p
        dsimp only
        split
        · split
          · refine isEG_bind (consumeI_noEG st1 tCOLON) fun st2 => ?_
            refine isEG_bind (ihv st2) fun q => ?_
            obtain ⟨v, st3⟩ := q
            exact ihl _ st3
          · exact ihl _ _
        · rfl
      · rfl

theorem parseVal_noEG (fuel : Nat) (st : PState) :
    isErrGridRes (parseVal fuel st) = false := (valDictLoop_noEG fuel).1 st

theorem parseDict_noEG (fuel : Nat) (st : PState) :
    isErrGridRes (parseDict fuel st) = false := (valDictLoop_noEG fuel).2.1 st

theorem parseColSpecs_noEG : ∀ (fuel : Nat) (gb : GridBuilder) (n : Nat)
    (st : PState), isErrGridRes (parseColSpecs fuel gb n st) = false := by
  intro fuel
  induction fuel with
  | zero => intro gb n st; rfl
  | succ m ih =>
    intro gb n st
    rw [parseColSpecs]
    refine isEG_bind (curTok_noEG st) fun t => ?_
    split
    · refine isEG_bind (consumeTagName_noEG st) fun p => ?_
      refine isEG_bind (curTok_noEG p.2) fun t2 => ?_
      dsimp only
      split
      · refine isEG_bind (parseDict_noEG m p.2) fun q => ?_
        obtain ⟨colMeta, st3⟩ := q
        dsimp only
        split
        · rfl
        · exact isEG_bind (consumeI_noEG st3 tCOMMA) fun st4 => ih _ _ st4
      · refine isEG_bind (isEG_pure _) fun q => ?_
        obtain ⟨colMeta, st3⟩ := q
        dsimp only
        split
        · rfl
        · exact isEG_bind (consumeI_noEG st3 tCOMMA) fun st4 => ih _ _ st4
    · rfl

theorem parseRowCells_noEG : ∀ (n fuel : Nat) (st : PState),
    isErrGridRes (parseRowCells fuel n st) = false := by
  intro n
  induction n with
  | zero => intro fuel st; rfl
  | succ m ih =>
    intro fuel st
    rw [parseRowCells]
    split
    · refine isEG_bind (isEG_pure _) fun p => ?_
      obtain ⟨c, st1⟩ := p
      dsimp only
      cases m with
      | zero => rfl
      | succ k =>
        refine isEG_bind (consumeI_noEG st1 tCOMMA) fun st2 => ?_
        refine isEG_bind (ih fuel st2) fun q => ?_
        obtain ⟨cs, st3⟩ := q
        rfl
    · refine isEG_bind (parseVal_noEG fuel st) fun r => ?_
      refine isEG_bind (isEG_pure _) fun p => ?_
      obtain ⟨c, st1⟩ := p
      dsimp only
      cases m with
      | zero => rfl
      | succ k =>
        refine isEG_bind (consumeI_noEG st1 tCOMMA) fun st2 => ?_
        refine isEG_bind (ih fuel st2) fun q => ?_
        obtain ⟨cs, st3⟩ := q
        rfl

theorem parseRows_noEG : ∀ (fuel numCols : Nat) (gb : GridBuilder)
    (st : PState), isErrGridRes (parseRows fuel numCols gb st) = false := by
  intro fuel
  induction fuel with
  | zero => intro numCols gb st; rfl
  | succ m ih =>
    intro numCols gb st
    rw [parseRows]
    split
    · rfl
    · refine isEG_bind (parseRowCells_noEG numCols m st) fun p => ?_
      obtain ⟨cells, st1⟩ := p
      dsimp only
      split
      · rfl
      · exact isEG_bind (consumeI_noEG st1 tNEWLINE) fun st2 => ih _ _ st2

theorem pdToNumeric_noEG (c : PCell) :
    isErrGridRes (pdToNumeric c) = false := by
  cases c with
  | pystr s =>
    show isErrGridRes (match pyFloat s with
      | some q => Except.ok (PCell.pynum q)
      | none => Except.error (ZErr.valueErr "Unable to parse string")) = false
    cases pyFloat s <;> rfl
  | missing => rfl
  | obj v => rfl
  | pynum v => rfl
  | pybool b => rfl

theorem mapM_pdToNumeric_noEG : ∀ (l : List PCell),
    isErrGridRes (l.mapM pdToNumeric) = false := by
  intro l
  induction l with
  | nil => rfl
  | cons c rest ih =>
    rw [List.mapM_cons]
    refine isEG_bind (pdToNumeric_noEG c) fun b => ?_
    exact isEG_bind ih fun bs => rfl

theorem sanitizeSeries_noEG (cells : List PCell) (m : ZDict) :
    isErrGridRes (sanitizeSeries cells m) = false := by
  unfold sanitizeSeries
  split
  · split
    · exact mapM_pdToNumeric_noEG _
    · split
      · split <;> rfl
      · rfl
  · split
    · rfl
    · split
      · split
        · exact mapM_pdToNumeric_noEG _
        · rfl
      · rfl

theorem sanitizeSweep_noEG : ∀ (metas : List ZDict)
    (cols : List (List Char × List PCell)) (i : Nat),
    isErrGridRes (sanitizeSweep cols metas i) = false := by
  intro metas
  induction metas with
  | nil => intro cols i; rfl
  | cons m rest ih =>
    intro cols i
    rw [sanitizeSweep]
    split
    · exact isEG_bind (isEG_pure _) fun cols' => ih cols' (i + 1)
    · split
      · exact isEG_bind (by rfl) fun cols' => ih cols' (i + 1)
      · rename_i name cells
        refine isEG_bind (sanitizeSeries_noEG _ m) fun cells' => ?_
        exact isEG_bind (isEG_pure _) fun cols' => ih cols' (i + 1)

theorem build_noEG (gb : GridBuilder) :
    isErrGridRes gb.build = false := by
  unfold GridBuilder.build
  split
  · rename_i p hpop
    obtain ⟨tsCells, colsRest⟩ := p
    dsimp only
    refine isEG_bind (isEG_pure _) fun pr => ?_
    obtain ⟨ts2, cols2⟩ := pr
    dsimp only
    cases ts2 with
    | cons a as => rfl
    | nil =>
      refine isEG_bind (isEG_pure _) fun idx => ?_
      dsimp only
      split
      · exact isEG_bind (sanitizeSweep_noEG _ _ 0) fun colsS => rfl
      · rfl
  · rfl

/-- Reduction of `Except` bind on a success value, used to align the
parser's do-chain with the claim's condition. -/
theorem bindOk {α β : Type} (a : α) (f : α → Except ZErr β) :
    (Except.ok a >>= f : Except ZErr β) = f a := rfl

/-- `_parse_grid` raises the `ErrorGrid` error exactly when the `ver`
header parses, the token after it is an identifier, the grid-info dict
parses, and it contains the key `err`. -/
theorem parseGrid_EG (fuel : Nat) (st : PState) :
    isErrGridRes (parseGrid fuel st) = metaHasErrSt fuel st := by
  rw [parseGrid, metaHasErrSt]
  cases hv : parseVerHeader st with
  | error e =>
    have h0 := parseVerHeader_noEG st
    rw [hv] at h0
    cases e <;> first | rfl | exact h0
  | ok p =>
    obtain ⟨ver, st1⟩ := p
    rw [bindOk]
    dsimp only
    cases hct : curTok st1 with
    | error e =>
      have h0 := curTok_noEG st1
      rw [hct] at h0
      cases e <;> first | rfl | exact h0
    | ok t =>
      rw [bindOk]
      dsimp only
      split
      · cases hpd : parseDict fuel st1 with
        | error e =>
          have h0 := parseDict_noEG fuel st1
          rw [hpd] at h0
          cases e <;> first | rfl | exact h0
        | ok q =>
          obtain ⟨d, st2⟩ := q
          rw [bindOk]
          dsimp only
          split
          · rename_i h
            rw [h]
            rfl
          · rename_i h
            simp only [Bool.not_eq_true] at h
            rw [h]
            rw [show (pure (GridBuilder.addMeta ⟨ver, none, [], []⟩ d, st2) :
                  Except ZErr (GridBuilder × PState)) =
                Except.ok (GridBuilder.addMeta ⟨ver, none, [], []⟩ d, st2) from rfl,
              bindOk]
            dsimp only
            refine isEG_bind (consumeI_noEG _ _) fun st3 => ?_
            refine isEG_bind (parseColSpecs_noEG fuel _ 0 st3) fun r => ?_
            obtain ⟨gb1, numCols, st4⟩ := r
            dsimp only
            split
            · rfl
            · refine isEG_bind (consumeI_noEG _ _) fun st5 => ?_
              refine isEG_bind (parseRows_noEG fuel numCols gb1 st5) fun r2 => ?_
              obtain ⟨gb2, st6⟩ := r2
              dsimp only
              split
              · refine isEG_bind (consumeI_noEG _ _) fun st7 => ?_
                exact isEG_bind (build_noEG gb2) fun g => rfl
              · refine isEG_bind (isEG_pure _) fun st7 => ?_
                exact isEG_bind (build_noEG gb2) fun g => rfl
      · rw [show (pure ((⟨ver, none, [], []⟩ : GridBuilder), st1) :
              Except ZErr (GridBuilder × PState)) =
            Except.ok ((⟨ver, none, [], []⟩ : GridBuilder), st1) from rfl,
          bindOk]
        dsimp only
        refine isEG_bind (consumeI_noEG _ _) fun st3 => ?_
        refine isEG_bind (parseColSpecs_noEG fuel _ 0 st3) fun r => ?_
        obtain ⟨gb1, numCols, st4⟩ := r
        dsimp only
        split
        · rfl
        · refine isEG_bind (consumeI_noEG _ _) fun st5 => ?_
          refine isEG_bind (parseRows_noEG fuel numCols gb1 st5) fun r2 => ?_
          obtain ⟨gb2, st6⟩ := r2
          dsimp only
          split
          · refine isEG_bind (consumeI_noEG _ _) fun st7 => ?_
            exact isEG_bind (build_noEG gb2) fun g => rfl
          · refine isEG_bind (isEG_pure _) fun st7 => ?_
            exact isEG_bind (build_noEG gb2) fun g => rfl

/-- C8: `parse` aborts with the distinct `ErrorGrid` error exactly when
the grid-info dict of the input contains the key `err` (so inputs whose
grid info lacks `err` never raise `ErrorGrid`), and a concrete err grid
aborts with `ErrorGrid` and returns no Grid. -/
theorem claim8_error_grid :
    (∀ l : List Char, isErrGridRes (parseTop l) = metaHasErr l)
    ∧ parseTop "ver:\"3.0\" err\nempty\n\n".toList =
        .error (.errorGrid "Error grid received")
    ∧ metaHasErr "ver:\"3.0\" err\nempty\n\n".toList = true
    ∧ metaHasErr "ver:\"3.0\"\nempty\n\n".toList = false := by
  refine ⟨fun l => ?_, by rfl, by rfl, by rfl⟩
  rw [parseTop, metaHasErr]
  cases hmk : mkPState l with
  | error e =>
    have h0 := mkPState_noEG l
    rw [hmk] at h0
    cases e <;> first | rfl | exact h0
  | ok st =>
    rw [bindOk]
    dsimp only
    rw [show metaHasErrSt (fuelFor l) st = isErrGridRes (parseGrid (fuelFor l) st)
        from (parseGrid_EG (fuelFor l) st).symm]
    cases hg : parseGrid (fuelFor l) st with
    | error e => cases e <;> rfl
    | ok p =>
      obtain ⟨g, st2⟩ := p
      rw [bindOk]
      dsimp only
      exact isEG_bind (verifyEq_noEG st2 tEOF) fun u => rfl
